import Mathlib

/-!
A shallow embedding of the polynotify detection-and-deduplication core
(src/polynotify/monitor.py and src/polynotify/store.py).

Modelling conventions:
- Wall-clock timestamps are integers (seconds).  SQLite's
  datetime('now', '-X minutes') cutoff becomes now - 60 * X.
- Python floats are modelled as rationals; all arithmetic performed by
  the core is comparison, subtraction, division and absolute value.
- ISO timestamp parsing (datetime.fromisoformat after the Z replacement)
  is a parameter parseTs : String -> Option Time; a None result models a
  ValueError/TypeError.
- Dynamically typed JSON fields keep their Python truthiness structure:
  RawBool models the closed field (bool, string, or missing), RawNum
  models numeric-or-string fields (volume, liquidity), and option types
  model missing keys.
- The sqlite tables become lists: seen_events a list of ids (the
  first_seen_at column is written but never read by the program),
  market_snapshots an append-only list of rows in insertion order, and
  alerts_sent a list with at most one row per (event_id, alert_type)
  maintained by INSERT OR REPLACE.
-/

namespace Polynotify

abbrev Time := Int

/-- A row of the market_snapshots table.  outcome_prices holds the parsed
JSON label-to-price mapping in insertion order (none when NULL was
stored); volume_24hr is none when NULL. -/
structure SnapshotRow where
  event_id : String
  outcome_prices : Option (List (String × Option Rat))
  volume_24hr : Option Rat
  recorded_at : Time
deriving DecidableEq

/-- A row of the alerts_sent table; the UNIQUE(event_id, alert_type)
constraint with INSERT OR REPLACE keeps at most one row per pair. -/
structure AlertRow where
  event_id : String
  alert_type : String
  sent_at : Time
deriving DecidableEq

/-- The persistent history store (store.py, class Store). -/
structure Store where
  seen : List String
  snapshots : List SnapshotRow
  alerts_sent : List AlertRow
deriving DecidableEq

/-- Store.is_seen: SELECT 1 FROM seen_events WHERE event_id = ?. -/
def Store.is_seen (s : Store) (event_id : String) : Bool :=
  s.seen.contains event_id

/-- Store.mark_seen: INSERT OR IGNORE INTO seen_events. -/
def Store.mark_seen (s : Store) (event_id : String) : Store :=
  if s.seen.contains event_id then s else { s with seen := s.seen ++ [event_id] }

/-- Store.is_empty: SELECT COUNT(*) FROM seen_events = 0. -/
def Store.is_empty (s : Store) : Bool :=
  s.seen.isEmpty

/-- Store.save_snapshot: INSERT INTO market_snapshots with
json.dumps(prices) if prices else None — a missing or empty price
mapping is stored as NULL. -/
def Store.save_snapshot (s : Store) (event_id : String)
    (prices : Option (List (String × Option Rat))) (volume : Option Rat)
    (now : Time) : Store :=
  let stored_prices :=
    match prices with
    | some l => if l.isEmpty then none else some l
    | none => none
  { s with snapshots := s.snapshots ++ [⟨event_id, stored_prices, volume, now⟩] }

/-- Store.get_snapshot: the row for this event with the greatest
recorded_at among those with recorded_at <= now - 60 * minutes_ago
(ORDER BY recorded_at DESC LIMIT 1); on ties the most recently inserted
row wins, matching the descending scan of the (event_id, recorded_at)
index. -/
def Store.get_snapshot (s : Store) (event_id : String) (minutes_ago : Int)
    (now : Time) : Option SnapshotRow :=
  (s.snapshots.filter
    (fun r => r.event_id == event_id && decide (r.recorded_at ≤ now - 60 * minutes_ago))).foldl
    (fun best r =>
      match best with
      | none => some r
      | some b => if b.recorded_at ≤ r.recorded_at then some r else some b) none

/-- Store.has_alert: SELECT 1 FROM alerts_sent WHERE event_id and alert_type match. -/
def Store.has_alert (s : Store) (event_id alert_type : String) : Bool :=
  s.alerts_sent.any (fun a => a.event_id == event_id && a.alert_type == alert_type)

/-- Store.record_alert: INSERT OR REPLACE keyed on (event_id, alert_type). -/
def Store.record_alert (s : Store) (event_id alert_type : String) (now : Time) : Store :=
  { s with alerts_sent :=
      (s.alerts_sent.filter
        (fun a => !(a.event_id == event_id && a.alert_type == alert_type))) ++
      [⟨event_id, alert_type, now⟩] }

/-- Store.last_alert_time: greatest sent_at among matching rows
(ORDER BY sent_at DESC LIMIT 1). -/
def Store.last_alert_time (s : Store) (event_id alert_type : String) : Option Time :=
  match (s.alerts_sent.filter
      (fun a => a.event_id == event_id && a.alert_type == alert_type)).foldl
      (fun best a =>
        match best with
        | none => some a
        | some b => if b.sent_at ≤ a.sent_at then some a else some b) none with
  | some a => some a.sent_at
  | none => none

/-- Store.cleanup_old_snapshots: DELETE FROM market_snapshots WHERE
recorded_at < datetime('now', '-H hours'); returns the deleted count. -/
def Store.cleanup_old_snapshots (s : Store) (max_age_hours : Int) (now : Time) :
    Nat × Store :=
  let cutoff := now - 3600 * max_age_hours
  let deleted := (s.snapshots.filter (fun r => decide (r.recorded_at < cutoff))).length
  (deleted, { s with snapshots := s.snapshots.filter (fun r => !decide (r.recorded_at < cutoff)) })

/-- A Python value sitting in the closed field: bool, string, or absent. -/
inductive RawBool where
  | missing
  | pybool (b : Bool)
  | pystr (s : String)
deriving DecidableEq

/-- A Python numeric-or-string field value; a string carries its float()
parse result (none when float() raises). -/
inductive RawNum where
  | num (q : Rat)
  | str (s : String) (parsed : Option Rat)
deriving DecidableEq

/-- Python truthiness of an optional numeric field (missing uses the
falsy default 0). -/
def rawTruthy : Option RawNum → Bool
  | none => false
  | some (.num q) => !(q == 0)
  | some (.str s _) => !s.isEmpty

/-- float(v) for a raw value, with the missing case defaulting to 0;
none models a ValueError. -/
def rawFloat : Option RawNum → Option Rat
  | none => some 0
  | some (.num q) => some q
  | some (.str _ p) => p

/-- Tag list entries: dicts carry an optional label, anything else is
kept via its str() rendering. -/
inductive TagVal where
  | dict (label : Option String)
  | other (s : String)
deriving DecidableEq

/-- One entry of the markets list of an event.  outcomePrices is none
when the key is absent or falsy, some none when present but failing
json.loads or float(), and some (some l) when it parses to the float
list l. -/
structure EventMarket where
  groupItemTitle : Option String
  outcome : Option String
  outcomePrices : Option (Option (List Rat))
  lastTradePrice : Option Rat
deriving DecidableEq

/-- A fetched market event record (the fields monitor.py reads). -/
structure Event where
  id : String
  title : Option String
  closed : RawBool
  endDate : Option String
  end_date_iso : Option String
  createdAt : Option String
  tags : List TagVal
  liquidity : Option RawNum
  volume : Option RawNum
  volume24hr : Option RawNum
  markets : List EventMarket
deriving DecidableEq

/-- Alert details dictionaries, one shape per alert type. -/
inductive AlertDetails where
  | empty
  | closing (hours_left minutes_left : Int)
  | resolved (outcome : String) (final_price : Option Rat)
  | price_move (old_price new_price change : Rat) (lookback_minutes : Int)
  | volume_spike (old_volume new_volume multiplier : Rat) (lookback_minutes : Int)
deriving DecidableEq

/-- A candidate alert (monitor.py, dataclass Alert). -/
structure Alert where
  type : String
  event : Event
  details : AlertDetails
deriving DecidableEq

/-- The alert configuration fields monitor.py reads from cfg.alerts. -/
structure AlertsConfig where
  enabled_alerts : List String
  new_market_max_age_hours : Rat
  closing_alert_hours : Rat
  price_threshold : Rat
  price_lookback_minutes : Int
  price_cooldown_minutes : Rat
  volume_spike_multiplier : Rat
  volume_lookback_minutes : Int
  volume_cooldown_minutes : Rat
deriving DecidableEq

/-- The data-source configuration fields used by the client-side filter
pass of _fetch_events. -/
structure GammaConfig where
  include_recurring : Bool
  tag_whitelist : List String
  min_liquidity : Rat
  title_keywords : List String
deriving DecidableEq

/-- The configuration value handed to the monitor. -/
structure Config where
  gamma : GammaConfig
  alerts : AlertsConfig
deriving DecidableEq

/-- Python truthiness of an optional string. -/
def pyTruthyStr : Option String → Bool
  | none => false
  | some s => !s.isEmpty

/-- Python a or b for two optional string fields followed by a
truthiness guard: the first truthy value, otherwise the second operand
unchanged. -/
def firstTruthyStr (a b : Option String) : Option String :=
  if pyTruthyStr a then a else b

/-- _is_closed: closed is True, or str(closed).lower() == "true". -/
def _is_closed (event : Event) : Bool :=
  match event.closed with
  | .pybool b => b
  | .pystr s => s.toLower == "true"
  | .missing => false

/-- Substring test on character lists (Python in operator for str). -/
def charsContains (needle : List Char) : List Char → Bool
  | [] => needle.isEmpty
  | c :: rest => needle.isPrefixOf (c :: rest) || charsContains needle rest

/-- Python needle in hay for strings. -/
def strContains (needle hay : String) : Bool :=
  charsContains needle.data hay.data

/-- Label of a tag entry: tag.get("label", "") for dicts, str(tag) otherwise. -/
def tagLabel : TagVal → String
  | .dict l => l.getD ""
  | .other s => s

/-- _is_recurring: some tag label contains "recurring" case-insensitively. -/
def _is_recurring (event : Event) : Bool :=
  event.tags.any (fun t => strContains "recurring" (tagLabel t).toLower)

/-- _has_tags: some whitelist entry equals a lowercased tag label. -/
def _has_tags (event : Event) (whitelist : List String) : Bool :=
  let labels := event.tags.map (fun t => (tagLabel t).toLower)
  whitelist.any (fun w => labels.contains w.toLower)

/-- _title_matches: some keyword occurs in the lowercased title. -/
def _title_matches (event : Event) (keywords : List String) : Bool :=
  let title := (event.title.getD "").toLower
  keywords.any (fun kw => strContains kw.toLower title)

/-- _get_liquidity: float(event.get("liquidity", 0) or 0) with errors
mapped to 0. -/
def _get_liquidity (event : Event) : Rat :=
  match rawFloat (if rawTruthy event.liquidity then event.liquidity else none) with
  | some q => q
  | none => 0

/-- The outcome label of a market entry:
m.get("groupItemTitle") or m.get("outcome", "Unknown"). -/
def outcomeLabel (m : EventMarket) : String :=
  match m.groupItemTitle with
  | some s => if !s.isEmpty then s else m.outcome.getD "Unknown"
  | none => m.outcome.getD "Unknown"

/-- Python dict insertion: overwrite in place when the key exists,
append otherwise (insertion order preserved). -/
def dictInsert (l : List (String × Option Rat)) (k : String) (v : Option Rat) :
    List (String × Option Rat) :=
  if l.any (fun p => p.1 == k) then
    l.map (fun p => if p.1 == k then (k, v) else p)
  else l ++ [(k, v)]

/-- _extract_prices: build the label-to-first-price dict; entries whose
outcomePrices fail to parse are dropped, a parsed empty list yields a
None price, and lastTradePrice is the fallback only when outcomePrices
is absent or falsy.  Returns none when the markets list or the
resulting dict is empty. -/
def _extract_prices (event : Event) : Option (List (String × Option Rat)) :=
  if event.markets.isEmpty then none
  else
    let prices := event.markets.foldl
      (fun acc m =>
        let outcome := outcomeLabel m
        match m.outcomePrices with
        | some parse_result =>
          match parse_result with
          | some parsed => dictInsert acc outcome parsed.head?
          | none => acc
        | none =>
          match m.lastTradePrice with
          | some p => dictInsert acc outcome (some p)
          | none => acc) []
    if prices.isEmpty then none else some prices

/-- _extract_volume: float of the first truthy of volume, volume24hr,
with the default 0; none models a parse error. -/
def _extract_volume (event : Event) : Option Rat :=
  let vol := if rawTruthy event.volume then event.volume
             else if rawTruthy event.volume24hr then event.volume24hr
             else none
  rawFloat vol

/-- _extract_resolution scan over one market entry list: the first
outcome whose parsed first price exceeds 0.9. -/
def extractResolutionGo : List EventMarket → String × Option Rat
  | [] => ("Unknown", none)
  | m :: rest =>
    let outcome := outcomeLabel m
    match m.outcomePrices with
    | some (some parsed) =>
      match parsed.head? with
      | some price => if price > 9/10 then (outcome, some price) else extractResolutionGo rest
      | none => extractResolutionGo rest
    | _ => extractResolutionGo rest

/-- _extract_resolution: winning outcome and price, or Unknown. -/
def _extract_resolution (event : Event) : String × Option Rat :=
  extractResolutionGo event.markets

/-- _fetch_events: none models an httpx.HTTPError or JSON ValueError,
which is logged and yields an empty batch; otherwise the client-side
filter pipeline runs. -/
def _fetch_events (cfg : GammaConfig) (response : Option (List Event)) : List Event :=
  match response with
  | none => []
  | some events =>
    let events := if !cfg.include_recurring then events.filter (fun e => !_is_recurring e) else events
    let events := if !cfg.tag_whitelist.isEmpty then events.filter (fun e => _has_tags e cfg.tag_whitelist) else events
    let events := if cfg.min_liquidity > 0 then events.filter (fun e => _get_liquidity e ≥ cfg.min_liquidity) else events
    let events := if !cfg.title_keywords.isEmpty then events.filter (fun e => _title_matches e cfg.title_keywords) else events
    events

/-- _check_new_market: mark unseen events seen, then alert unless this
is the backfill run or the event is older than the configured maximum
age (an unparsable createdAt falls through to the alert). -/
def _check_new_market (cfg : AlertsConfig) (parseTs : String → Option Time)
    (s : Store) (event : Event) (is_first_run : Bool) (now : Time) :
    Option Alert × Store :=
  if s.is_seen event.id then (none, s)
  else
    let s := s.mark_seen event.id
    if is_first_run then (none, s)
    else
      let alert : Option Alert := some { type := "new_market", event := event, details := .empty }
      if pyTruthyStr event.createdAt ∧ cfg.new_market_max_age_hours > 0 then
        match parseTs (event.createdAt.getD "") with
        | some created_at =>
          if ((now - created_at : Int) : Rat) / 3600 > cfg.new_market_max_age_hours then
            (none, s)
          else (alert, s)
        | none => (alert, s)
      else (alert, s)

/-- _check_closing_soon: for an event with a truthy, parseable end
timestamp, alert when 0 < hours_left <= closing_alert_hours and no
closing_soon alert was ever committed for this id. -/
def _check_closing_soon (cfg : AlertsConfig) (parseTs : String → Option Time)
    (s : Store) (event : Event) (now : Time) : Option Alert :=
  match firstTruthyStr event.endDate event.end_date_iso with
  | none => none
  | some end_date_str =>
    if end_date_str.isEmpty then none
    else
      match parseTs end_date_str with
      | none => none
      | some end_date =>
        let hours_left : Rat := ((end_date - now : Int) : Rat) / 3600
        if hours_left ≤ 0 ∨ hours_left > cfg.closing_alert_hours then none
        else if s.has_alert event.id "closing_soon" then none
        else
          some { type := "closing_soon", event := event,
                 details := .closing (Int.ediv (end_date - now) 3600)
                                     (Int.emod (Int.ediv (end_date - now) 60) 60) }

/-- _check_resolved: alert for a closed, seen event with no prior
resolved alert. -/
def _check_resolved (s : Store) (event : Event) : Option Alert :=
  if !(_is_closed event) then none
  else if !(s.is_seen event.id) then none
  else if s.has_alert event.id "resolved" then none
  else
    let r := _extract_resolution event
    some { type := "resolved", event := event, details := .resolved r.1 r.2 }

/-- First value of the prices dict:
float(list(prices.values())[0]), with IndexError and TypeError giving
none. -/
def firstValue (l : List (String × Option Rat)) : Option Rat :=
  match l.head? with
  | some kv => kv.2
  | none => none

/-- _check_price_move: compare the first outcome price against the
baseline snapshot at or before now minus the lookback, alert when the
absolute change reaches the threshold and the cooldown is not active. -/
def _check_price_move (cfg : AlertsConfig) (s : Store) (event : Event) (now : Time) :
    Option Alert :=
  match _extract_prices event with
  | none => none
  | some prices =>
    match s.get_snapshot event.id cfg.price_lookback_minutes now with
    | none => none
    | some snapshot =>
      match snapshot.outcome_prices with
      | none => none
      | some old_prices =>
        if old_prices.isEmpty then none
        else
          match firstValue prices, firstValue old_prices with
          | some new_price, some old_price =>
            let change := |new_price - old_price|
            if change < cfg.price_threshold then none
            else
              let alert : Option Alert :=
                some { type := "price_move", event := event,
                       details := (.price_move old_price new_price (new_price - old_price)
                                     cfg.price_lookback_minutes) }
              match s.last_alert_time event.id "price_move" with
              | some last =>
                if ((now - last : Int) : Rat) / 60 < cfg.price_cooldown_minutes then none
                else alert
              | none => alert
          | _, _ => none

/-- Python round to one decimal digit with ties to even (display-only
field of the volume alert). -/
def round1 (q : Rat) : Rat :=
  let x := q * 10
  let f := ⌊x⌋
  let frac := x - (f : Rat)
  let r : Int :=
    if frac > 1/2 then f + 1
    else if frac < 1/2 then f
    else if f % 2 = 0 then f else f + 1
  (r : Rat) / 10

/-- _check_volume_spike: alert when current volume and the baseline
snapshot volume are both strictly positive, their ratio reaches the
multiplier, and the cooldown is not active. -/
def _check_volume_spike (cfg : AlertsConfig) (s : Store) (event : Event) (now : Time) :
    Option Alert :=
  match _extract_volume event with
  | none => none
  | some volume =>
    if volume == 0 ∨ volume ≤ 0 then none
    else
      match s.get_snapshot event.id cfg.volume_lookback_minutes now with
      | none => none
      | some snapshot =>
        match snapshot.volume_24hr with
        | none => none
        | some old_volume =>
          if old_volume == 0 ∨ old_volume ≤ 0 then none
          else
            let multiplier := volume / old_volume
            if multiplier < cfg.volume_spike_multiplier then none
            else
              let alert : Option Alert :=
                some { type := "volume_spike", event := event,
                       details := (.volume_spike old_volume volume (round1 multiplier)
                                     cfg.volume_lookback_minutes) }
              match s.last_alert_time event.id "volume_spike" with
              | some last =>
                if ((now - last : Int) : Rat) / 60 < cfg.volume_cooldown_minutes then none
                else alert
              | none => alert

/-- Python dict comprehension insertion keyed by id: overwrite the
value in place, keep the first-insertion position. -/
def dictInsertEvent (l : List Event) (e : Event) : List Event :=
  if l.any (fun x => x.id == e.id) then
    l.map (fun x => if x.id == e.id then e else x)
  else l ++ [e]

/-- dict.setdefault keyed by id: keep an existing entry, append otherwise. -/
def setdefaultEvent (l : List Event) (e : Event) : List Event :=
  if l.any (fun x => x.id == e.id) then l else l ++ [e]

/-- The merged working set of a poll cycle: active events keyed by id,
then closed events via setdefault (active wins on collision). -/
def mergeEvents (active_events closed_events : List Event) : List Event :=
  closed_events.foldl setdefaultEvent (active_events.foldl dictInsertEvent [])

/-- The body of the per-event loop of Monitor.poll: run the five
detectors in order against the evolving store, then save a snapshot for
open events.  Returns the updated store and the alerts this event
appended. -/
def processEvent (cfg : Config) (parseTs : String → Option Time)
    (is_first_run : Bool) (now : Time) (s : Store) (event : Event) :
    Store × List Alert :=
  let enabled := cfg.alerts.enabled_alerts
  let nm :=
    if enabled.contains "new_market" then
      _check_new_market cfg.alerts parseTs s event is_first_run now
    else
      (none, if !(s.is_seen event.id) then s.mark_seen event.id else s)
  let a1 := nm.1
  let s := nm.2
  let a2 := if enabled.contains "closing_soon" && !(_is_closed event) then
      _check_closing_soon cfg.alerts parseTs s event now else none
  let a3 := if enabled.contains "resolved" then
      _check_resolved s event else none
  let a4 := if enabled.contains "price_move" && !(_is_closed event) then
      _check_price_move cfg.alerts s event now else none
  let a5 := if enabled.contains "volume_spike" && !(_is_closed event) then
      _check_volume_spike cfg.alerts s event now else none
  let s := if !(_is_closed event) then
      s.save_snapshot event.id (_extract_prices event) (_extract_volume event) now
    else s
  (s, a1.toList ++ a2.toList ++ a3.toList ++ a4.toList ++ a5.toList)

/-- Result of one poll cycle: the emitted alerts, the updated store and
the incremented cycle counter. -/
structure PollResult where
  alerts : List Alert
  store : Store
  cycle : Nat
deriving DecidableEq

/-- Monitor.poll over already-fetched batches: merge the batches, run
the detector loop over every record, then the periodic snapshot
cleanup every 60th cycle. -/
def Monitor.poll (cfg : Config) (parseTs : String → Option Time) (s : Store)
    (cycle : Nat) (active_events closed_events : List Event) (now : Time) :
    PollResult :=
  let cycle := cycle + 1
  let is_first_run := s.is_empty
  let all_events := mergeEvents active_events closed_events
  let folded := all_events.foldl
    (fun acc event =>
      let r := processEvent cfg parseTs is_first_run now acc.1 event
      (r.1, acc.2 ++ r.2)) (s, ([] : List Alert))
  let s := folded.1
  let alerts := folded.2
  let s := if cycle % 60 == 0 then (s.cleanup_old_snapshots 24 now).2 else s
  { alerts := alerts, store := s, cycle := cycle }

/-- Recursive form of the per-event loop of Monitor.poll, used to reason
about the fold: returns the final store and the concatenated alerts. -/
def runLoop (cfg : Config) (parseTs : String → Option Time) (is_first_run : Bool)
    (now : Time) : Store → List Event → Store × List Alert
  | s, [] => (s, [])
  | s, e :: es =>
    let r := processEvent cfg parseTs is_first_run now s e
    let rest := runLoop cfg parseTs is_first_run now r.1 es
    (rest.1, r.2 ++ rest.2)

/-- The end timestamp a cycle would use for an event: the first truthy
of endDate and end_date_iso, parsed; none when absent or unparseable. -/
def parsedEnd (parseTs : String → Option Time) (event : Event) : Option Time :=
  match firstTruthyStr event.endDate event.end_date_iso with
  | none => none
  | some s => if s.isEmpty then none else parseTs s

/-- The current first-outcome price a price-move comparison would use. -/
def currentFirstPrice (event : Event) : Option Rat :=
  match _extract_prices event with
  | some prices => firstValue prices
  | none => none

/-- The baseline first-outcome price: first price of the snapshot at or
before the lookback cutoff, none when the snapshot is missing or has no
usable price mapping. -/
def baselineFirstPrice (s : Store) (event_id : String) (minutes_ago : Int)
    (now : Time) : Option Rat :=
  match s.get_snapshot event_id minutes_ago now with
  | some snapshot =>
    match snapshot.outcome_prices with
    | some old_prices => if old_prices.isEmpty then none else firstValue old_prices
    | none => none
  | none => none

/-- The baseline 24-hour volume from the snapshot at or before the
lookback cutoff. -/
def baselineVolume (s : Store) (event_id : String) (minutes_ago : Int)
    (now : Time) : Option Rat :=
  match s.get_snapshot event_id minutes_ago now with
  | some snapshot => snapshot.volume_24hr
  | none => none

/-- The cooldown gate as the code implements it: no last alert, or at
least the cooldown (in minutes) elapsed since it. -/
def cooldownAtLeast (last : Option Time) (cooldown : Rat) (now : Time) : Prop :=
  ∀ t, last = some t → cooldown ≤ ((now - t : Int) : Rat) / 60

/-- The age gate of the new-market detector: false exactly when
createdAt is truthy, the maximum age is positive, createdAt parses, and
the age exceeds the maximum. -/
def ageWithinLimit (cfg : AlertsConfig) (parseTs : String → Option Time)
    (now : Time) (event : Event) : Bool :=
  !(pyTruthyStr event.createdAt && decide (cfg.new_market_max_age_hours > 0) &&
    (match parseTs (event.createdAt.getD "") with
     | some created_at =>
       decide (((now - created_at : Int) : Rat) / 3600 > cfg.new_market_max_age_hours)
     | none => false))

/-! Concrete fixtures used by witnesses and counterexamples. -/

/-- All five alert kinds enabled. -/
def allAlertKinds : List String :=
  ["new_market", "closing_soon", "resolved", "price_move", "volume_spike"]

/-- Default-like data-source configuration. -/
def gamma0 : GammaConfig :=
  { include_recurring := false, tag_whitelist := [], min_liquidity := 0, title_keywords := [] }

/-- Default-like alert configuration (config.py defaults, all kinds
enabled, no new-market age limit). -/
def alerts0 : AlertsConfig :=
  { enabled_alerts := allAlertKinds, new_market_max_age_hours := 0, closing_alert_hours := 2,
    price_threshold := 15/100, price_lookback_minutes := 60, price_cooldown_minutes := 30,
    volume_spike_multiplier := 3, volume_lookback_minutes := 60, volume_cooldown_minutes := 60 }

/-- Default-like full configuration. -/
def cfg0 : Config := { gamma := gamma0, alerts := alerts0 }

/-- A timestamp parser that fails on every input. -/
def pt0 : String → Option Time := fun _ => none

/-- One binary market entry with the given first-outcome price. -/
def mkMarket (yes_price : Rat) : EventMarket :=
  { groupItemTitle := some "Yes", outcome := none,
    outcomePrices := some (some [yes_price, 1 - yes_price]), lastTradePrice := none }

/-- A concrete open market event with id m1. -/
def baseEvent : Event :=
  { id := "m1", title := some "Will BTC go up?", closed := .pybool false, endDate := none,
    end_date_iso := none, createdAt := none, tags := [.dict (some "Crypto")],
    liquidity := some (.num 5000), volume := some (.num 10000), volume24hr := none,
    markets := [mkMarket (1/2)] }

/-- A closed event whose first outcome resolved at 0.95. -/
def evClosed95 : Event :=
  { baseEvent with closed := .pybool true, markets := [mkMarket (95/100)] }

/-- The empty store. -/
def store0 : Store := { seen := [], snapshots := [], alerts_sent := [] }

/-- A nonempty store that has never seen m1. -/
def storeOther : Store := { seen := ["other"], snapshots := [], alerts_sent := [] }

/-- A store that has seen m1. -/
def storeSeen : Store := { seen := ["m1"], snapshots := [], alerts_sent := [] }

/-- Configuration with a one-hour new-market age limit. -/
def cfgAge : Config := { cfg0 with alerts := { alerts0 with new_market_max_age_hours := 1 } }

/-- Parser recognising the creation timestamp OLD as epoch 0. -/
def ptCreated : String → Option Time := fun s => if s == "OLD" then some 0 else none

/-- An open event created at OLD (epoch 0). -/
def evOld : Event := { baseEvent with createdAt := some "OLD" }

/-- Snapshot rows and store for the lookup claim (no price data, so all
fields are kernel-computable). -/
def snapA : SnapshotRow :=
  { event_id := "m1", outcome_prices := none, volume_24hr := none, recorded_at := 0 }

/-- Later snapshot row for the lookup claim. -/
def snapB : SnapshotRow :=
  { event_id := "m1", outcome_prices := none, volume_24hr := none, recorded_at := 100 }

/-- Store holding snapA and snapB. -/
def store4 : Store := { seen := [], snapshots := [snapA, snapB], alerts_sent := [] }

/-- Parser recognising the end timestamp END as epoch 3600. -/
def ptEnd : String → Option Time := fun s => if s == "END" then some 3600 else none

/-- An open event ending at END (epoch 3600). -/
def evClosing : Event := { baseEvent with endDate := some "END" }

/-- Price-move configuration: threshold 0.10, zero lookback. -/
def cfgPM : Config :=
  { cfg0 with alerts := { alerts0 with price_threshold := 1/10, price_lookback_minutes := 0 } }

/-- Baseline snapshot with first price 0.50 for m1. -/
def snapPM : SnapshotRow :=
  { event_id := "m1", outcome_prices := some [("Yes", some (1/2))],
    volume_24hr := some 10000, recorded_at := 0 }

/-- Store with the price baseline for m1, no alerts committed. -/
def storePM : Store := { seen := ["m1"], snapshots := [snapPM], alerts_sent := [] }

/-- Same store with a price-move alert committed at epoch 0. -/
def storeCD : Store := { storePM with alerts_sent := [⟨"m1", "price_move", 0⟩] }

/-- The m1 event with first price moved to 0.70. -/
def evMoved : Event := { baseEvent with markets := [mkMarket (7/10)] }

/-- Volume-spike configuration: multiplier 2, zero lookback. -/
def cfgVS : Config :=
  { cfg0 with alerts := { alerts0 with volume_spike_multiplier := 2, volume_lookback_minutes := 0 } }

/-- Baseline snapshot with volume 1000 for m1. -/
def snapVS : SnapshotRow :=
  { event_id := "m1", outcome_prices := some [("Yes", some (1/2))],
    volume_24hr := some 1000, recorded_at := 0 }

/-- Store with the volume baseline for m1. -/
def storeVS : Store := { seen := ["m1"], snapshots := [snapVS], alerts_sent := [] }

/-- The m1 event with current volume 5000. -/
def evSpike : Event := { baseEvent with volume := some (.num 5000) }

/-- The alert the volume-spike cycle on evSpike produces. -/
def aSpike : Alert :=
  { type := "volume_spike", event := evSpike,
    details := .volume_spike 1000 5000 (round1 (5000 / 1000)) 0 }

/-- A snapshot old enough for the retention sweep (about 27.8 hours
before epoch 0). -/
def snapOld : SnapshotRow :=
  { event_id := "m1", outcome_prices := none, volume_24hr := none, recorded_at := -100000 }

/-- Store holding only the old snapshot, polled at cycle counter 59 so
the next cycle is the 60th. -/
def store59 : Store := { seen := [], snapshots := [snapOld], alerts_sent := [] }

/-- The m1 event with a zero current volume. -/
def evZeroVol : Event := { baseEvent with volume := some (.num 0) }

/-! Store-level helper lemmas. -/

theorem mark_seen_snapshots (s : Store) (id : String) :
    (s.mark_seen id).snapshots = s.snapshots := by
  unfold Store.mark_seen
  split <;> rfl

theorem mark_seen_alerts_sent (s : Store) (id : String) :
    (s.mark_seen id).alerts_sent = s.alerts_sent := by
  unfold Store.mark_seen
  split <;> rfl

theorem mark_seen_of_seen {s : Store} {id : String} (h : s.is_seen id = true) :
    s.mark_seen id = s := by
  unfold Store.mark_seen
  have hm : id ∈ s.seen := by
    unfold Store.is_seen at h
    simpa using h
  simp [hm]

theorem is_seen_mark_seen_self (s : Store) (id : String) :
    (s.mark_seen id).is_seen id = true := by
  unfold Store.mark_seen Store.is_seen
  by_cases hm : id ∈ s.seen
  · simp [hm]
  · simp [hm]

theorem is_seen_mark_seen_other {id id' : String} (h : id' ≠ id) (s : Store) :
    (s.mark_seen id).is_seen id' = s.is_seen id' := by
  unfold Store.mark_seen Store.is_seen
  by_cases hm : id ∈ s.seen
  · simp [hm]
  · simp [hm, h]

theorem is_seen_mark_seen_mono {s : Store} {id id' : String} (h : s.is_seen id' = true) :
    (s.mark_seen id).is_seen id' = true := by
  by_cases h' : id' = id
  · subst h'
    exact is_seen_mark_seen_self s id'
  · rw [is_seen_mark_seen_other h']
    exact h

theorem save_snapshot_seen (s : Store) (id : String) (p v now) :
    (s.save_snapshot id p v now).seen = s.seen := rfl

theorem save_snapshot_alerts_sent (s : Store) (id : String) (p v now) :
    (s.save_snapshot id p v now).alerts_sent = s.alerts_sent := rfl

theorem cleanup_seen (s : Store) (h now) :
    ((s.cleanup_old_snapshots h now).2).seen = s.seen := rfl

theorem cleanup_alerts_sent (s : Store) (h now) :
    ((s.cleanup_old_snapshots h now).2).alerts_sent = s.alerts_sent := rfl

theorem is_seen_congr {t s : Store} (h : t.seen = s.seen) (id : String) :
    t.is_seen id = s.is_seen id := by
  unfold Store.is_seen
  rw [h]

theorem has_alert_congr {t s : Store} (h : t.alerts_sent = s.alerts_sent) (id ty : String) :
    t.has_alert id ty = s.has_alert id ty := by
  unfold Store.has_alert
  rw [h]

theorem last_alert_time_congr {t s : Store} (h : t.alerts_sent = s.alerts_sent)
    (id ty : String) :
    t.last_alert_time id ty = s.last_alert_time id ty := by
  unfold Store.last_alert_time
  rw [h]

theorem get_snapshot_congr {t s : Store} (h : t.snapshots = s.snapshots)
    (id : String) (m : Int) (now : Time) :
    t.get_snapshot id m now = s.get_snapshot id m now := by
  unfold Store.get_snapshot
  rw [h]

theorem get_snapshot_save_other {s : Store} {id id' : String} (h : id ≠ id')
    (p v now' : _) (m : Int) (now : Time) :
    (s.save_snapshot id' p v now').get_snapshot id m now = s.get_snapshot id m now := by
  unfold Store.save_snapshot Store.get_snapshot
  simp only [List.filter_append]
  have hne : id' ≠ id := Ne.symm h
  have hb : (id' == id) = false := by simpa using hne
  simp [hb]

/-! Detector-level helper lemmas. -/

theorem check_new_market_snd (cfg : AlertsConfig) (pt : String → Option Time)
    (s : Store) (e : Event) (first : Bool) (now : Time) :
    (_check_new_market cfg pt s e first now).2 = s.mark_seen e.id := by
  unfold _check_new_market
  by_cases h : s.is_seen e.id = true
  · simp [h, mark_seen_of_seen h]
  · simp only [h]
    simp only [Bool.false_eq_true, if_false]
    split
    · rfl
    · split
      · split
        · split <;> rfl
        · rfl
      · rfl

theorem check_new_market_fst_some {cfg : AlertsConfig} {pt : String → Option Time}
    {s : Store} {e : Event} {first : Bool} {now : Time} {a : Alert}
    (h : (_check_new_market cfg pt s e first now).1 = some a) :
    a.type = "new_market" ∧ a.event = e ∧ a.details = .empty := by
  unfold _check_new_market at h
  by_cases hs : s.is_seen e.id = true
  · simp [hs] at h
  · simp only [hs, Bool.false_eq_true, if_false] at h
    split at h
    · simp at h
    · split at h
      · split at h
        · split at h
          · simp at h
          · simp at h
            subst h
            exact ⟨rfl, rfl, rfl⟩
        · simp at h
          subst h
          exact ⟨rfl, rfl, rfl⟩
      · simp at h
        subst h
        exact ⟨rfl, rfl, rfl⟩

theorem check_new_market_fst_none_of_seen {cfg : AlertsConfig} {pt : String → Option Time}
    {s : Store} {e : Event} {first : Bool} {now : Time}
    (h : s.is_seen e.id = true) :
    (_check_new_market cfg pt s e first now).1 = none := by
  unfold _check_new_market
  simp [h]

theorem check_new_market_fst_none_of_first (cfg : AlertsConfig) (pt : String → Option Time)
    (s : Store) (e : Event) (now : Time) :
    (_check_new_market cfg pt s e true now).1 = none := by
  unfold _check_new_market
  by_cases h : s.is_seen e.id = true <;> simp [h]

theorem check_new_market_fst_isSome {cfg : AlertsConfig} {pt : String → Option Time}
    {s : Store} {e : Event} {now : Time}
    (h1 : s.is_seen e.id = false) (h3 : ageWithinLimit cfg pt now e = true) :
    (_check_new_market cfg pt s e false now).1 = some ⟨"new_market", e, .empty⟩ := by
  unfold _check_new_market
  unfold ageWithinLimit at h3
  simp only [h1, Bool.false_eq_true, if_false]
  simp only [Bool.not_eq_true', Bool.and_eq_false_iff] at h3
  split
  · rename_i hcond
    rcases h3 with h3 | h3
    · rcases h3 with h3 | h3
      · exact absurd hcond.1 (by simp [h3])
      · exact absurd hcond.2 (by simpa using h3)
    · split
      · rename_i created hc
        rw [hc] at h3
        simp only [decide_eq_false_iff_not, not_lt] at h3
        rw [if_neg (not_lt.mpr h3)]
      · rfl
  · rfl

theorem check_closing_soon_congr {t s : Store} (h : t.alerts_sent = s.alerts_sent)
    (cfg : AlertsConfig) (pt : String → Option Time) (e : Event) (now : Time) :
    _check_closing_soon cfg pt t e now = _check_closing_soon cfg pt s e now := by
  unfold _check_closing_soon
  rw [has_alert_congr h]

theorem check_resolved_congr {t s : Store} (hseen : t.seen = s.seen)
    (h : t.alerts_sent = s.alerts_sent) (e : Event) :
    _check_resolved t e = _check_resolved s e := by
  unfold _check_resolved
  rw [has_alert_congr h, is_seen_congr hseen]

theorem check_price_move_congr {t s : Store} (hsnap : t.snapshots = s.snapshots)
    (h : t.alerts_sent = s.alerts_sent) (cfg : AlertsConfig) (e : Event) (now : Time) :
    _check_price_move cfg t e now = _check_price_move cfg s e now := by
  unfold _check_price_move
  rw [get_snapshot_congr hsnap, last_alert_time_congr h]

theorem check_volume_spike_congr {t s : Store} (hsnap : t.snapshots = s.snapshots)
    (h : t.alerts_sent = s.alerts_sent) (cfg : AlertsConfig) (e : Event) (now : Time) :
    _check_volume_spike cfg t e now = _check_volume_spike cfg s e now := by
  unfold _check_volume_spike
  rw [get_snapshot_congr hsnap, last_alert_time_congr h]

theorem check_closing_soon_some {cfg : AlertsConfig} {pt : String → Option Time}
    {s : Store} {e : Event} {now : Time} {a : Alert}
    (h : _check_closing_soon cfg pt s e now = some a) :
    a.type = "closing_soon" ∧ a.event = e := by
  unfold _check_closing_soon at h
  try simp only [] at h
  repeat' split at h
  all_goals try (injection h with h; subst h; exact ⟨rfl, rfl⟩)
  all_goals exact Option.noConfusion h

theorem check_resolved_some {s : Store} {e : Event} {a : Alert}
    (h : _check_resolved s e = some a) :
    a.type = "resolved" ∧ a.event = e := by
  unfold _check_resolved at h
  try simp only [] at h
  repeat' split at h
  all_goals try (injection h with h; subst h; exact ⟨rfl, rfl⟩)
  all_goals exact Option.noConfusion h

theorem check_price_move_some {cfg : AlertsConfig} {s : Store} {e : Event} {now : Time}
    {a : Alert} (h : _check_price_move cfg s e now = some a) :
    a.type = "price_move" ∧ a.event = e := by
  unfold _check_price_move at h
  try simp only [] at h
  repeat' split at h
  all_goals try (injection h with h; subst h; exact ⟨rfl, rfl⟩)
  all_goals exact Option.noConfusion h

theorem check_volume_spike_some {cfg : AlertsConfig} {s : Store} {e : Event} {now : Time}
    {a : Alert} (h : _check_volume_spike cfg s e now = some a) :
    a.type = "volume_spike" ∧ a.event = e := by
  unfold _check_volume_spike at h
  try simp only [] at h
  repeat' split at h
  all_goals try (injection h with h; subst h; exact ⟨rfl, rfl⟩)
  all_goals exact Option.noConfusion h

/-! Loop-body and loop-level helper lemmas. -/

theorem processEvent_fst (cfg : Config) (pt : String → Option Time) (first : Bool)
    (now : Time) (s : Store) (e : Event) :
    (processEvent cfg pt first now s e).1 =
      (if !(_is_closed e) then
        (s.mark_seen e.id).save_snapshot e.id (_extract_prices e) (_extract_volume e) now
      else s.mark_seen e.id) := by
  unfold processEvent
  by_cases hc : "new_market" ∈ cfg.alerts.enabled_alerts
  · simp [hc, check_new_market_snd]
  · by_cases hs : s.is_seen e.id = true
    · simp [hc, hs, mark_seen_of_seen hs]
    · simp [hc, hs]

theorem processEvent_snd (cfg : Config) (pt : String → Option Time) (first : Bool)
    (now : Time) (s : Store) (e : Event) :
    (processEvent cfg pt first now s e).2 =
      (if cfg.alerts.enabled_alerts.contains "new_market" then
          (_check_new_market cfg.alerts pt s e first now).1 else none).toList ++
      (if cfg.alerts.enabled_alerts.contains "closing_soon" && !(_is_closed e) then
          _check_closing_soon cfg.alerts pt (s.mark_seen e.id) e now else none).toList ++
      (if cfg.alerts.enabled_alerts.contains "resolved" then
          _check_resolved (s.mark_seen e.id) e else none).toList ++
      (if cfg.alerts.enabled_alerts.contains "price_move" && !(_is_closed e) then
          _check_price_move cfg.alerts (s.mark_seen e.id) e now else none).toList ++
      (if cfg.alerts.enabled_alerts.contains "volume_spike" && !(_is_closed e) then
          _check_volume_spike cfg.alerts (s.mark_seen e.id) e now else none).toList := by
  unfold processEvent
  by_cases hc : "new_market" ∈ cfg.alerts.enabled_alerts
  · simp [hc, check_new_market_snd]
  · by_cases hs : s.is_seen e.id = true
    · simp [hc, hs, mark_seen_of_seen hs]
    · simp [hc, hs]

theorem processEvent_fst_alerts_sent (cfg : Config) (pt : String → Option Time)
    (first : Bool) (now : Time) (s : Store) (e : Event) :
    ((processEvent cfg pt first now s e).1).alerts_sent = s.alerts_sent := by
  rw [processEvent_fst]
  split
  · rw [save_snapshot_alerts_sent, mark_seen_alerts_sent]
  · rw [mark_seen_alerts_sent]

theorem processEvent_fst_seen (cfg : Config) (pt : String → Option Time)
    (first : Bool) (now : Time) (s : Store) (e : Event) :
    ((processEvent cfg pt first now s e).1).seen = (s.mark_seen e.id).seen := by
  rw [processEvent_fst]
  split
  · rw [save_snapshot_seen]
  · rfl

theorem processEvent_fst_is_seen_self (cfg : Config) (pt : String → Option Time)
    (first : Bool) (now : Time) (s : Store) (e : Event) :
    ((processEvent cfg pt first now s e).1).is_seen e.id = true := by
  rw [is_seen_congr (processEvent_fst_seen cfg pt first now s e)]
  exact is_seen_mark_seen_self s e.id

theorem processEvent_fst_is_seen_other {id : String} {e : Event} (h : id ≠ e.id)
    (cfg : Config) (pt : String → Option Time) (first : Bool) (now : Time) (s : Store) :
    ((processEvent cfg pt first now s e).1).is_seen id = s.is_seen id := by
  rw [is_seen_congr (processEvent_fst_seen cfg pt first now s e)]
  exact is_seen_mark_seen_other h s

theorem processEvent_fst_is_seen_mono {id : String} {s : Store} (h : s.is_seen id = true)
    (cfg : Config) (pt : String → Option Time) (first : Bool) (now : Time) (e : Event) :
    ((processEvent cfg pt first now s e).1).is_seen id = true := by
  rw [is_seen_congr (processEvent_fst_seen cfg pt first now s e)]
  exact is_seen_mark_seen_mono h

theorem processEvent_fst_get_snapshot_other {id : String} {e : Event} (h : id ≠ e.id)
    (cfg : Config) (pt : String → Option Time) (first : Bool) (now now' : Time)
    (m : Int) (s : Store) :
    ((processEvent cfg pt first now s e).1).get_snapshot id m now' =
      s.get_snapshot id m now' := by
  rw [processEvent_fst]
  split
  · rw [get_snapshot_save_other h]
    exact get_snapshot_congr (mark_seen_snapshots s e.id) id m now'
  · exact get_snapshot_congr (mark_seen_snapshots s e.id) id m now'

theorem mem_ite_none_toList {c : Prop} [Decidable c] {o : Option Alert} {a : Alert}
    (h : a ∈ (if c then o else none).toList) : c ∧ o = some a := by
  split at h
  · rename_i hc
    exact ⟨hc, by simpa using h⟩
  · simp at h

theorem processEvent_snd_event {cfg : Config} {pt : String → Option Time} {first : Bool}
    {now : Time} {s : Store} {e : Event} {a : Alert}
    (ha : a ∈ (processEvent cfg pt first now s e).2) : a.event = e := by
  rw [processEvent_snd] at ha
  simp only [List.mem_append] at ha
  rcases ha with ((((ha | ha) | ha) | ha) | ha)
  · exact (check_new_market_fst_some (mem_ite_none_toList ha).2).2.1
  · exact (check_closing_soon_some (mem_ite_none_toList ha).2).2
  · exact (check_resolved_some (mem_ite_none_toList ha).2).2
  · exact (check_price_move_some (mem_ite_none_toList ha).2).2
  · exact (check_volume_spike_some (mem_ite_none_toList ha).2).2

theorem runLoop_append (cfg : Config) (pt : String → Option Time) (first : Bool)
    (now : Time) (l₁ l₂ : List Event) (s : Store) :
    runLoop cfg pt first now s (l₁ ++ l₂) =
      ((runLoop cfg pt first now (runLoop cfg pt first now s l₁).1 l₂).1,
       (runLoop cfg pt first now s l₁).2 ++
         (runLoop cfg pt first now (runLoop cfg pt first now s l₁).1 l₂).2) := by
  induction l₁ generalizing s with
  | nil => simp [runLoop]
  | cons e es ih =>
    simp only [List.cons_append, runLoop, List.append_eq, ih, List.append_assoc]

theorem runLoop_fst_alerts_sent (cfg : Config) (pt : String → Option Time) (first : Bool)
    (now : Time) (l : List Event) (s : Store) :
    ((runLoop cfg pt first now s l).1).alerts_sent = s.alerts_sent := by
  induction l generalizing s with
  | nil => rfl
  | cons e es ih =>
    simp only [runLoop]
    rw [ih, processEvent_fst_alerts_sent]

theorem runLoop_fst_is_seen_mono {id : String} (cfg : Config) (pt : String → Option Time)
    (first : Bool) (now : Time) (l : List Event) {s : Store} (h : s.is_seen id = true) :
    ((runLoop cfg pt first now s l).1).is_seen id = true := by
  induction l generalizing s with
  | nil => exact h
  | cons e es ih =>
    simp only [runLoop]
    exact ih (processEvent_fst_is_seen_mono h cfg pt first now e)

theorem runLoop_fst_is_seen_of_mem {e : Event} {l : List Event} (he : e ∈ l)
    (cfg : Config) (pt : String → Option Time) (first : Bool) (now : Time) (s : Store) :
    ((runLoop cfg pt first now s l).1).is_seen e.id = true := by
  induction l generalizing s with
  | nil => cases he
  | cons x xs ih =>
    rcases List.mem_cons.mp he with rfl | hmem
    · simp only [runLoop]
      exact runLoop_fst_is_seen_mono cfg pt first now xs
        (processEvent_fst_is_seen_self cfg pt first now s e)
    · simp only [runLoop]
      exact ih hmem _

theorem runLoop_fst_is_seen_other {id : String} {l : List Event}
    (h : ∀ x ∈ l, x.id ≠ id) (cfg : Config) (pt : String → Option Time) (first : Bool)
    (now : Time) (s : Store) :
    ((runLoop cfg pt first now s l).1).is_seen id = s.is_seen id := by
  induction l generalizing s with
  | nil => rfl
  | cons e es ih =>
    simp only [runLoop]
    rw [ih (fun x hx => h x (List.mem_cons_of_mem e hx)),
      processEvent_fst_is_seen_other (fun hid => h e (List.mem_cons_self e es) hid.symm)]

theorem runLoop_fst_get_snapshot_other {id : String} {l : List Event}
    (h : ∀ x ∈ l, x.id ≠ id) (cfg : Config) (pt : String → Option Time) (first : Bool)
    (now now' : Time) (m : Int) (s : Store) :
    ((runLoop cfg pt first now s l).1).get_snapshot id m now' =
      s.get_snapshot id m now' := by
  induction l generalizing s with
  | nil => rfl
  | cons e es ih =>
    simp only [runLoop]
    rw [ih (fun x hx => h x (List.mem_cons_of_mem e hx)),
      processEvent_fst_get_snapshot_other (fun hid => h e (List.mem_cons_self e es) hid.symm)]

theorem runLoop_snd_sources {cfg : Config} {pt : String → Option Time} {first : Bool}
    {now : Time} {l : List Event} {s : Store} {a : Alert}
    (h : a ∈ (runLoop cfg pt first now s l).2) :
    ∃ l₁ x l₂, l = l₁ ++ x :: l₂ ∧
      a ∈ (processEvent cfg pt first now (runLoop cfg pt first now s l₁).1 x).2 := by
  induction l generalizing s with
  | nil => simp [runLoop] at h
  | cons e es ih =>
    simp only [runLoop, List.mem_append] at h
    rcases h with h | h
    · exact ⟨[], e, es, rfl, by simpa [runLoop] using h⟩
    · obtain ⟨l₁, x, l₂, heq, hmem⟩ := ih h
      refine ⟨e :: l₁, x, l₂, by rw [heq] ; rfl, ?_⟩
      simpa [runLoop] using hmem

theorem runLoop_snd_event_mem {cfg : Config} {pt : String → Option Time} {first : Bool}
    {now : Time} {l : List Event} {s : Store} {a : Alert}
    (h : a ∈ (runLoop cfg pt first now s l).2) : ∃ x ∈ l, a.event = x := by
  obtain ⟨l₁, x, l₂, heq, hmem⟩ := runLoop_snd_sources h
  exact ⟨x, by rw [heq] ; exact List.mem_append_right l₁ (List.mem_cons_self x l₂),
    processEvent_snd_event hmem⟩

theorem runLoop_countP_zero_of_other {cfg : Config} {pt : String → Option Time}
    {first : Bool} {now : Time} {l : List Event} {s : Store} {p : Alert → Bool}
    {id : String} (hp : ∀ a : Alert, p a = true → a.event.id = id)
    (h : ∀ x ∈ l, x.id ≠ id) :
    ((runLoop cfg pt first now s l).2).countP p = 0 := by
  rw [List.countP_eq_zero]
  intro a ha hpa
  obtain ⟨x, hx, hev⟩ := runLoop_snd_event_mem ha
  exact h x hx (by rw [← hev] ; exact hp a hpa)

theorem poll_eq_runLoop (cfg : Config) (pt : String → Option Time) (s : Store)
    (cycle : Nat) (active_events closed_events : List Event) (now : Time) :
    Monitor.poll cfg pt s cycle active_events closed_events now =
      { alerts := (runLoop cfg pt s.is_empty now s (mergeEvents active_events closed_events)).2,
        store := (if (cycle + 1) % 60 == 0 then
            (((runLoop cfg pt s.is_empty now s
                (mergeEvents active_events closed_events)).1).cleanup_old_snapshots 24 now).2
          else (runLoop cfg pt s.is_empty now s (mergeEvents active_events closed_events)).1),
        cycle := cycle + 1 } := by
  have hfold : ∀ (l : List Event) (s0 : Store) (as : List Alert),
      l.foldl (fun acc event =>
        let r := processEvent cfg pt s.is_empty now acc.1 event
        (r.1, acc.2 ++ r.2)) (s0, as) =
      ((runLoop cfg pt s.is_empty now s0 l).1,
        as ++ (runLoop cfg pt s.is_empty now s0 l).2) := by
    intro l
    induction l with
    | nil => intro s0 as; simp [runLoop]
    | cons e es ih =>
      intro s0 as
      simp only [List.foldl_cons, runLoop, ih, List.append_assoc]
  unfold Monitor.poll
  simp only [hfold, List.nil_append]

/-! Distinctness of identifiers in the merged working set. -/

theorem dictInsertEvent_ids_nodup {l : List Event} {e : Event}
    (h : (l.map Event.id).Nodup) : ((dictInsertEvent l e).map Event.id).Nodup := by
  unfold dictInsertEvent
  by_cases hc : (l.any fun x => x.id == e.id) = true
  · simp only [hc, if_true]
    have hmap : (l.map fun x => if x.id == e.id then e else x).map Event.id
        = l.map Event.id := by
      rw [List.map_map]
      apply List.map_congr_left
      intro x hx
      by_cases hb : (x.id == e.id) = true
      · have hxe : x.id = e.id := by simpa using hb
        simp [Function.comp, hb, hxe]
      · simp [Function.comp, hb]
    rw [hmap]
    exact h
  · have hc' : (l.any fun x => x.id == e.id) = false := by simpa using hc
    simp only [hc', Bool.false_eq_true, if_false]
    have hnotin : e.id ∉ l.map Event.id := by
      intro hmem
      obtain ⟨x, hx, hxe⟩ := List.mem_map.mp hmem
      have : (l.any fun x => x.id == e.id) = true := by
        apply List.any_eq_true.mpr
        exact ⟨x, hx, by simpa using hxe⟩
      rw [this] at hc'
      cases hc'
    rw [List.map_append]
    refine List.Nodup.append h (List.nodup_singleton _) ?_
    intro a ha hb
    have : a = e.id := by simpa using hb
    subst this
    exact hnotin ha

theorem setdefaultEvent_ids_nodup {l : List Event} {e : Event}
    (h : (l.map Event.id).Nodup) : ((setdefaultEvent l e).map Event.id).Nodup := by
  unfold setdefaultEvent
  by_cases hc : (l.any fun x => x.id == e.id) = true
  · simp only [hc, if_true]
    exact h
  · have hc' : (l.any fun x => x.id == e.id) = false := by simpa using hc
    simp only [hc', Bool.false_eq_true, if_false]
    have hnotin : e.id ∉ l.map Event.id := by
      intro hmem
      obtain ⟨x, hx, hxe⟩ := List.mem_map.mp hmem
      have : (l.any fun x => x.id == e.id) = true := by
        apply List.any_eq_true.mpr
        exact ⟨x, hx, by simpa using hxe⟩
      rw [this] at hc'
      cases hc'
    rw [List.map_append]
    refine List.Nodup.append h (List.nodup_singleton _) ?_
    intro a ha hb
    have : a = e.id := by simpa using hb
    subst this
    exact hnotin ha

theorem foldl_dictInsertEvent_ids_nodup :
    ∀ (l : List Event) (acc : List Event), (acc.map Event.id).Nodup →
      ((l.foldl dictInsertEvent acc).map Event.id).Nodup
  | [], acc, h => h
  | e :: es, acc, h =>
    foldl_dictInsertEvent_ids_nodup es (dictInsertEvent acc e) (dictInsertEvent_ids_nodup h)

theorem foldl_setdefaultEvent_ids_nodup :
    ∀ (l : List Event) (acc : List Event), (acc.map Event.id).Nodup →
      ((l.foldl setdefaultEvent acc).map Event.id).Nodup
  | [], acc, h => h
  | e :: es, acc, h =>
    foldl_setdefaultEvent_ids_nodup es (setdefaultEvent acc e) (setdefaultEvent_ids_nodup h)

theorem mergeEvents_ids_nodup (active_events closed_events : List Event) :
    ((mergeEvents active_events closed_events).map Event.id).Nodup := by
  unfold mergeEvents
  exact foldl_setdefaultEvent_ids_nodup closed_events _
    (foldl_dictInsertEvent_ids_nodup active_events [] List.nodup_nil)

theorem mem_split_of_ids_nodup {l : List Event} {e : Event} (hmem : e ∈ l)
    (hnd : (l.map Event.id).Nodup) :
    ∃ l₁ l₂, l = l₁ ++ e :: l₂ ∧ (∀ x ∈ l₁, x.id ≠ e.id) ∧ (∀ x ∈ l₂, x.id ≠ e.id) := by
  obtain ⟨l₁, l₂, rfl⟩ := List.append_of_mem hmem
  refine ⟨l₁, l₂, rfl, ?_, ?_⟩
  · intro x hx heq
    rw [List.map_append, List.map_cons, List.nodup_append] at hnd
    exact hnd.2.2 (List.mem_map_of_mem Event.id hx) (by rw [heq] ; exact List.mem_cons_self _ _)
  · intro x hx heq
    rw [List.map_append, List.map_cons, List.nodup_append, List.nodup_cons] at hnd
    exact hnd.2.1.1 (by rw [← heq] ; exact List.mem_map_of_mem Event.id hx)

/-! Counting and identifier-injectivity helpers. -/

theorem ids_ne_of_split_nodup {l l₁ l₂ : List Event} {x : Event}
    (heq : l = l₁ ++ x :: l₂) (hnd : (l.map Event.id).Nodup) :
    (∀ y ∈ l₁, y.id ≠ x.id) ∧ (∀ y ∈ l₂, y.id ≠ x.id) := by
  subst heq
  constructor
  · intro y hy hid
    rw [List.map_append, List.map_cons, List.nodup_append] at hnd
    exact hnd.2.2 (List.mem_map_of_mem Event.id hy) (by rw [hid] ; exact List.mem_cons_self _ _)
  · intro y hy hid
    rw [List.map_append, List.map_cons, List.nodup_append, List.nodup_cons] at hnd
    exact hnd.2.1.1 (by rw [← hid] ; exact List.mem_map_of_mem Event.id hy)

theorem eq_of_mem_ids_nodup {l : List Event} {x e : Event}
    (hnd : (l.map Event.id).Nodup) (hx : x ∈ l) (he : e ∈ l) (hid : x.id = e.id) :
    x = e :=
  List.inj_on_of_nodup_map hnd hx he hid

theorem countP_ite_toList_ne {c : Prop} [Decidable c] {o : Option Alert} {p : Alert → Bool}
    (h : ∀ a, o = some a → p a = false) :
    ((if c then o else none).toList).countP p = 0 := by
  split
  · rcases ho : o with _ | a
    · rfl
    · simp [ho, h a ho]
  · rfl

theorem processEvent_countP_nm (cfg : Config) (pt : String → Option Time) (first : Bool)
    (now : Time) (t : Store) (e : Event) :
    ((processEvent cfg pt first now t e).2).countP
        (fun a => a.type == "new_market" && a.event.id == e.id) =
      (if cfg.alerts.enabled_alerts.contains "new_market" then
        (if (_check_new_market cfg.alerts pt t e first now).1.isSome then 1 else 0)
      else 0) := by
  rw [processEvent_snd]
  simp only [List.countP_append]
  have h2 : ((if cfg.alerts.enabled_alerts.contains "closing_soon" && !(_is_closed e) then
      _check_closing_soon cfg.alerts pt (t.mark_seen e.id) e now else none).toList).countP
      (fun a => a.type == "new_market" && a.event.id == e.id) = 0 := by
    apply countP_ite_toList_ne
    intro a ha
    have := (check_closing_soon_some ha).1
    simp [this]
  have h3 : ((if cfg.alerts.enabled_alerts.contains "resolved" then
      _check_resolved (t.mark_seen e.id) e else none).toList).countP
      (fun a => a.type == "new_market" && a.event.id == e.id) = 0 := by
    apply countP_ite_toList_ne
    intro a ha
    have := (check_resolved_some ha).1
    simp [this]
  have h4 : ((if cfg.alerts.enabled_alerts.contains "price_move" && !(_is_closed e) then
      _check_price_move cfg.alerts (t.mark_seen e.id) e now else none).toList).countP
      (fun a => a.type == "new_market" && a.event.id == e.id) = 0 := by
    apply countP_ite_toList_ne
    intro a ha
    have := (check_price_move_some ha).1
    simp [this]
  have h5 : ((if cfg.alerts.enabled_alerts.contains "volume_spike" && !(_is_closed e) then
      _check_volume_spike cfg.alerts (t.mark_seen e.id) e now else none).toList).countP
      (fun a => a.type == "new_market" && a.event.id == e.id) = 0 := by
    apply countP_ite_toList_ne
    intro a ha
    have := (check_volume_spike_some ha).1
    simp [this]
  rw [h2, h3, h4, h5]
  have h1 : ((if cfg.alerts.enabled_alerts.contains "new_market" then
      (_check_new_market cfg.alerts pt t e first now).1 else none).toList).countP
      (fun a => a.type == "new_market" && a.event.id == e.id) =
      (if cfg.alerts.enabled_alerts.contains "new_market" then
        (if (_check_new_market cfg.alerts pt t e first now).1.isSome then 1 else 0)
      else 0) := by
    split
    · rcases hn : (_check_new_market cfg.alerts pt t e first now).1 with _ | a
      · simp
      · obtain ⟨hty, hev, _⟩ := check_new_market_fst_some hn
        simp [hty, hev]
    · rfl
  rw [h1]
  omega

/-! The max-selection fold behind Store.get_snapshot. -/

theorem pickFold_some {fl : List SnapshotRow} {acc : Option SnapshotRow} {r : SnapshotRow}
    (h : fl.foldl (fun best r =>
        match best with
        | none => some r
        | some b => if b.recorded_at ≤ r.recorded_at then some r else some b) acc = some r) :
    (r ∈ fl ∨ acc = some r) ∧ (∀ b, acc = some b → b.recorded_at ≤ r.recorded_at) ∧
      (∀ r' ∈ fl, r'.recorded_at ≤ r.recorded_at) := by
  induction fl generalizing acc with
  | nil =>
    rw [List.foldl_nil] at h
    refine ⟨Or.inr h, ?_, ?_⟩
    · intro b hb
      rw [h] at hb
      injection hb with hb
      rw [hb]
    · intro r' hr'
      cases hr'
  | cons x xs ih =>
    rw [List.foldl_cons] at h
    cases acc with
    | none =>
      have h' : xs.foldl (fun best r =>
          match best with
          | none => some r
          | some b => if b.recorded_at ≤ r.recorded_at then some r else some b)
          (some x) = some r := h
      obtain ⟨hmem, hle, hall⟩ := ih h'
      refine ⟨?_, ?_, ?_⟩
      · rcases hmem with hm | hm
        · exact Or.inl (List.mem_cons_of_mem x hm)
        · injection hm with hm
          refine Or.inl ?_
          rw [← hm]
          exact List.mem_cons_self x xs
      · intro b hb
        cases hb
      · intro r' hr'
        rcases List.mem_cons.mp hr' with rfl | hm
        · exact hle r' rfl
        · exact hall r' hm
    | some b =>
      have h' : xs.foldl (fun best r =>
          match best with
          | none => some r
          | some b => if b.recorded_at ≤ r.recorded_at then some r else some b)
          (if b.recorded_at ≤ x.recorded_at then some x else some b) = some r := h
      by_cases hbx : b.recorded_at ≤ x.recorded_at
      · rw [if_pos hbx] at h'
        obtain ⟨hmem, hle, hall⟩ := ih h'
        refine ⟨?_, ?_, ?_⟩
        · rcases hmem with hm | hm
          · exact Or.inl (List.mem_cons_of_mem x hm)
          · injection hm with hm
            refine Or.inl ?_
            rw [← hm]
            exact List.mem_cons_self x xs
        · intro b' hb'
          injection hb' with hb'
          rw [← hb']
          exact le_trans hbx (hle x rfl)
        · intro r' hr'
          rcases List.mem_cons.mp hr' with rfl | hm
          · exact hle r' rfl
          · exact hall r' hm
      · rw [if_neg hbx] at h'
        obtain ⟨hmem, hle, hall⟩ := ih h'
        refine ⟨?_, ?_, ?_⟩
        · rcases hmem with hm | hm
          · exact Or.inl (List.mem_cons_of_mem x hm)
          · exact Or.inr hm
        · intro b' hb'
          injection hb' with hb'
          rw [← hb']
          exact hle b rfl
        · intro r' hr'
          rcases List.mem_cons.mp hr' with rfl | hm
          · exact le_trans (le_of_lt (lt_of_not_le hbx)) (hle b rfl)
          · exact hall r' hm

theorem pickFold_none {fl : List SnapshotRow} {acc : Option SnapshotRow}
    (h : fl.foldl (fun best r =>
        match best with
        | none => some r
        | some b => if b.recorded_at ≤ r.recorded_at then some r else some b) acc = none) :
    fl = [] ∧ acc = none := by
  induction fl generalizing acc with
  | nil => exact ⟨rfl, h⟩
  | cons x xs ih =>
    rw [List.foldl_cons] at h
    exfalso
    cases acc with
    | none =>
      have h' : xs.foldl (fun best r =>
          match best with
          | none => some r
          | some b => if b.recorded_at ≤ r.recorded_at then some r else some b)
          (some x) = none := h
      obtain ⟨_, h2⟩ := ih h'
      cases h2
    | some b =>
      have h' : xs.foldl (fun best r =>
          match best with
          | none => some r
          | some b => if b.recorded_at ≤ r.recorded_at then some r else some b)
          (if b.recorded_at ≤ x.recorded_at then some x else some b) = none := h
      obtain ⟨_, h2⟩ := ih h'
      by_cases hbx : b.recorded_at ≤ x.recorded_at
      · rw [if_pos hbx] at h2
        cases h2
      · rw [if_neg hbx] at h2
        cases h2

/-! Trigger-condition characterizations of the detectors. -/

theorem check_closing_soon_isSome_iff (cfg : AlertsConfig) (pt : String → Option Time)
    (s : Store) (e : Event) (now : Time) :
    (∃ a, _check_closing_soon cfg pt s e now = some a) ↔
      (∃ t, parsedEnd pt e = some t ∧
        0 < ((t - now : Int) : Rat) / 3600 ∧
        ((t - now : Int) : Rat) / 3600 ≤ cfg.closing_alert_hours ∧
        s.has_alert e.id "closing_soon" = false) := by
  unfold _check_closing_soon parsedEnd
  rcases hft : firstTruthyStr e.endDate e.end_date_iso with _ | str
  · simp
  · by_cases hse : str.isEmpty = true
    · simp [hse]
    · simp only [hse, Bool.false_eq_true, if_false]
      rcases hpt : pt str with _ | tEnd
      · simp
      · simp only []
        by_cases hcond : ((tEnd - now : Int) : Rat) / 3600 ≤ 0 ∨
            ((tEnd - now : Int) : Rat) / 3600 > cfg.closing_alert_hours
        · rw [if_pos hcond]
          constructor
          · rintro ⟨a, ha⟩
            cases ha
          · rintro ⟨t, ht, h1, h2, _⟩
            injection ht with ht
            subst ht
            rcases hcond with hc | hc
            · exact absurd h1 (not_lt.mpr hc)
            · exact absurd h2 (not_le.mpr hc)
        · rw [if_neg hcond]
          push_neg at hcond
          by_cases hal : s.has_alert e.id "closing_soon" = true
          · rw [if_pos hal]
            constructor
            · rintro ⟨a, ha⟩
              cases ha
            · rintro ⟨t, ht, _, _, hfalse⟩
              rw [hal] at hfalse
              cases hfalse
          · rw [if_neg hal]
            constructor
            · rintro ⟨a, _⟩
              exact ⟨tEnd, rfl, hcond.1, hcond.2, by simpa using hal⟩
            · rintro ⟨t, ht, _, _, _⟩
              exact ⟨_, rfl⟩

theorem check_price_move_isSome_iff (cfg : AlertsConfig) (t : Store) (e : Event)
    (now : Time) {p : Rat} (hp : currentFirstPrice e = some p) :
    (∃ a, _check_price_move cfg t e now = some a) ↔
      ∃ q, baselineFirstPrice t e.id cfg.price_lookback_minutes now = some q ∧
        cfg.price_threshold ≤ |p - q| ∧
        cooldownAtLeast (t.last_alert_time e.id "price_move")
          cfg.price_cooldown_minutes now := by
  unfold currentFirstPrice at hp
  unfold _check_price_move baselineFirstPrice
  rcases hep : _extract_prices e with _ | prices
  · rw [hep] at hp
    cases hp
  · rw [hep] at hp
    simp only [] at hp
    simp only []
    rcases hgs : t.get_snapshot e.id cfg.price_lookback_minutes now with _ | snap
    · simp
    · simp only []
      rcases hop : snap.outcome_prices with _ | old_prices
      · simp
      · simp only []
        by_cases hemp : old_prices.isEmpty = true
        · simp [hemp]
        · simp only [if_neg hemp]
          rw [hp]
          rcases hfv : firstValue old_prices with _ | q
          · simp
          · simp only []
            by_cases hth : |p - q| < cfg.price_threshold
            · rw [if_pos hth]
              constructor
              · rintro ⟨a, ha⟩
                cases ha
              · rintro ⟨q', hq', hle, _⟩
                injection hq' with hq'
                subst hq'
                exact absurd hle (not_le.mpr hth)
            · rw [if_neg hth]
              rcases hlast : t.last_alert_time e.id "price_move" with _ | last
              · simp only []
                constructor
                · rintro ⟨a, _⟩
                  refine ⟨q, rfl, not_lt.mp hth, ?_⟩
                  intro tt htt
                  cases htt
                · rintro _
                  exact ⟨_, rfl⟩
              · simp only []
                by_cases hcd : ((now - last : Int) : Rat) / 60 < cfg.price_cooldown_minutes
                · rw [if_pos hcd]
                  constructor
                  · rintro ⟨a, ha⟩
                    cases ha
                  · rintro ⟨q', _, _, hcda⟩
                    exact absurd (hcda last rfl) (not_le.mpr hcd)
                · rw [if_neg hcd]
                  constructor
                  · rintro ⟨a, _⟩
                    refine ⟨q, rfl, not_lt.mp hth, ?_⟩
                    intro tt htt
                    injection htt with htt
                    subst htt
                    exact not_lt.mp hcd
                  · rintro _
                    exact ⟨_, rfl⟩

theorem check_volume_spike_some_conditions {cfg : AlertsConfig} {t : Store} {e : Event}
    {now : Time} {a : Alert} (h : _check_volume_spike cfg t e now = some a) :
    ∃ v, _extract_volume e = some v ∧ 0 < v ∧
    ∃ ov, baselineVolume t e.id cfg.volume_lookback_minutes now = some ov ∧ 0 < ov ∧
      cfg.volume_spike_multiplier ≤ v / ov ∧
      cooldownAtLeast (t.last_alert_time e.id "volume_spike")
        cfg.volume_cooldown_minutes now := by
  unfold _check_volume_spike at h
  unfold baselineVolume
  rcases hev : _extract_volume e with _ | v
  · rw [hev] at h
    cases h
  · rw [hev] at h
    simp only [] at h
    by_cases hz : (v == 0) = true ∨ v ≤ 0
    · rw [if_pos hz] at h
      cases h
    · rw [if_neg hz] at h
      push_neg at hz
      have hvpos : 0 < v := hz.2
      rcases hgs : t.get_snapshot e.id cfg.volume_lookback_minutes now with _ | snap
      · rw [hgs] at h
        simp only [] at h
        cases h
      · rw [hgs] at h
        simp only [] at h
        simp only []
        rcases hov : snap.volume_24hr with _ | ov
        · rw [hov] at h
          simp only [] at h
          cases h
        · rw [hov] at h
          simp only [] at h
          by_cases hoz : (ov == 0) = true ∨ ov ≤ 0
          · rw [if_pos hoz] at h
            cases h
          · rw [if_neg hoz] at h
            push_neg at hoz
            have hovpos : 0 < ov := hoz.2
            by_cases hmul : v / ov < cfg.volume_spike_multiplier
            · rw [if_pos hmul] at h
              cases h
            · rw [if_neg hmul] at h
              refine ⟨v, rfl, hvpos, ov, rfl, hovpos, not_lt.mp hmul, ?_⟩
              intro tt htt
              rw [htt] at h
              simp only [] at h
              by_cases hcd : ((now - tt : Int) : Rat) / 60 < cfg.volume_cooldown_minutes
              · rw [if_pos hcd] at h
                cases h
              · exact not_lt.mp hcd

/-! Poll-level component lemmas. -/

theorem runLoop_snd_cons (cfg : Config) (pt : String → Option Time) (first : Bool)
    (now : Time) (s : Store) (e : Event) (l : List Event) :
    (runLoop cfg pt first now s (e :: l)).2 =
      (processEvent cfg pt first now s e).2 ++
        (runLoop cfg pt first now (processEvent cfg pt first now s e).1 l).2 := by
  simp only [runLoop]

theorem runLoop_snd_append (cfg : Config) (pt : String → Option Time) (first : Bool)
    (now : Time) (s : Store) (l₁ l₂ : List Event) :
    (runLoop cfg pt first now s (l₁ ++ l₂)).2 =
      (runLoop cfg pt first now s l₁).2 ++
        (runLoop cfg pt first now (runLoop cfg pt first now s l₁).1 l₂).2 := by
  rw [runLoop_append]

theorem poll_alerts (cfg : Config) (pt : String → Option Time) (s : Store) (cycle : Nat)
    (active_events closed_events : List Event) (now : Time) :
    (Monitor.poll cfg pt s cycle active_events closed_events now).alerts =
      (runLoop cfg pt s.is_empty now s (mergeEvents active_events closed_events)).2 := by
  rw [poll_eq_runLoop]

theorem poll_cycle_eq (cfg : Config) (pt : String → Option Time) (s : Store) (cycle : Nat)
    (active_events closed_events : List Event) (now : Time) :
    (Monitor.poll cfg pt s cycle active_events closed_events now).cycle = cycle + 1 := by
  rw [poll_eq_runLoop]

theorem poll_store_seen (cfg : Config) (pt : String → Option Time) (s : Store) (cycle : Nat)
    (active_events closed_events : List Event) (now : Time) :
    ((Monitor.poll cfg pt s cycle active_events closed_events now).store).seen =
      ((runLoop cfg pt s.is_empty now s (mergeEvents active_events closed_events)).1).seen := by
  rw [poll_eq_runLoop]
  dsimp only []
  split
  · exact cleanup_seen _ _ _
  · rfl

theorem poll_store_alerts_sent (cfg : Config) (pt : String → Option Time) (s : Store)
    (cycle : Nat) (active_events closed_events : List Event) (now : Time) :
    ((Monitor.poll cfg pt s cycle active_events closed_events now).store).alerts_sent =
      s.alerts_sent := by
  rw [poll_eq_runLoop]
  dsimp only []
  split
  · rw [cleanup_alerts_sent]
    exact runLoop_fst_alerts_sent cfg pt s.is_empty now _ s
  · exact runLoop_fst_alerts_sent cfg pt s.is_empty now _ s

/-! Claim theorems. -/

/-- C4: for every identifier and lookback value, Store.get_snapshot
returns a stored snapshot of that identifier whose recorded timestamp is
at or before now minus the lookback and is greatest among all such
stored snapshots, and returns nothing exactly when no stored snapshot of
that identifier has a timestamp at or before that cutoff. -/
theorem get_snapshot_most_recent_at_or_before_cutoff (s : Store) (id : String)
    (m : Int) (now : Time) :
    (∀ r, s.get_snapshot id m now = some r →
        r ∈ s.snapshots ∧ r.event_id = id ∧ r.recorded_at ≤ now - 60 * m ∧
        ∀ r' ∈ s.snapshots, r'.event_id = id → r'.recorded_at ≤ now - 60 * m →
          r'.recorded_at ≤ r.recorded_at) ∧
    (s.get_snapshot id m now = none ↔
        ∀ r' ∈ s.snapshots, r'.event_id = id → ¬(r'.recorded_at ≤ now - 60 * m)) := by
  constructor
  · intro r hr
    unfold Store.get_snapshot at hr
    obtain ⟨hmem, _, hall⟩ := pickFold_some hr
    rcases hmem with hm | hm
    · have hf := List.mem_filter.mp hm
      have hcond := hf.2
      simp only [Bool.and_eq_true, beq_iff_eq, decide_eq_true_eq] at hcond
      refine ⟨hf.1, hcond.1, hcond.2, ?_⟩
      intro r' hr' hid hle
      apply hall
      exact List.mem_filter.mpr ⟨hr', by simp [hid, hle]⟩
    · cases hm
  · constructor
    · intro h r' hmem hid hle
      unfold Store.get_snapshot at h
      obtain ⟨hfl, _⟩ := pickFold_none h
      have hin : r' ∈ s.snapshots.filter
          (fun r => r.event_id == id && decide (r.recorded_at ≤ now - 60 * m)) :=
        List.mem_filter.mpr ⟨hmem, by simp [hid, hle]⟩
      rw [hfl] at hin
      cases hin
    · intro hall
      unfold Store.get_snapshot
      have hfl : s.snapshots.filter
          (fun r => r.event_id == id && decide (r.recorded_at ≤ now - 60 * m)) = [] := by
        apply List.filter_eq_nil_iff.mpr
        intro r hr
        simp only [Bool.and_eq_true, beq_iff_eq, decide_eq_true_eq, not_and]
        intro hid
        exact hall r hr hid
      rw [hfl]
      rfl

/-- Witness for C4 at a concrete store: the lookup at cutoff 50 returns
the row recorded at 0 (the only one at or before the cutoff), and a
cutoff below every row yields nothing. -/
theorem get_snapshot_most_recent_witness :
    store4.get_snapshot "m1" 0 50 = some snapA ∧
    snapA ∈ store4.snapshots ∧ snapA.event_id = "m1" ∧
    snapA.recorded_at ≤ 50 - 60 * 0 ∧
    (∀ r' ∈ store4.snapshots, r'.event_id = "m1" → r'.recorded_at ≤ 50 - 60 * 0 →
      r'.recorded_at ≤ snapA.recorded_at) ∧
    store4.get_snapshot "m1" 0 (-1) = none := by
  have h1 : store4.get_snapshot "m1" 0 50 = some snapA := by decide
  have h := (get_snapshot_most_recent_at_or_before_cutoff store4 "m1" 0 50).1 snapA h1
  have h2 : store4.get_snapshot "m1" 0 (-1) = none := by decide
  exact ⟨h1, h.1, h.2.1, h.2.2.1, h.2.2.2, h2⟩

/-- C8: every record in the merged working set whose identifier is not
yet seen is marked seen by the end of the cycle, for every configuration
and enable set, and marking seen does not change the snapshot or alert
bookkeeping of the store. -/
theorem mark_seen_regardless_of_enabled_kinds (cfg : Config) (pt : String → Option Time)
    (s : Store) (cycle : Nat) (active_events closed_events : List Event) (now : Time)
    (e : Event) (hunseen : s.is_seen e.id = false)
    (hmem : e ∈ mergeEvents active_events closed_events) :
    ((Monitor.poll cfg pt s cycle active_events closed_events now).store).is_seen e.id
      = true ∧
    (∀ (t : Store) (id : String),
      (t.mark_seen id).snapshots = t.snapshots ∧
      (t.mark_seen id).alerts_sent = t.alerts_sent) := by
  refine ⟨?_, fun t id => ⟨mark_seen_snapshots t id, mark_seen_alerts_sent t id⟩⟩
  rw [is_seen_congr (poll_store_seen cfg pt s cycle active_events closed_events now)]
  exact runLoop_fst_is_seen_of_mem hmem cfg pt s.is_empty now s

/-- Witness for C8 at a concrete cycle: the unseen event m1 ends up seen
and mark_seen leaves the other two tables unchanged. -/
theorem mark_seen_regardless_witness :
    store0.is_seen "m1" = false ∧
    ((Monitor.poll cfg0 pt0 store0 0 [baseEvent] [] 0).store).is_seen "m1" = true ∧
    (∀ (t : Store) (id : String),
      (t.mark_seen id).snapshots = t.snapshots ∧
      (t.mark_seen id).alerts_sent = t.alerts_sent) := by
  have hmem : baseEvent ∈ mergeEvents [baseEvent] [] := by
    show baseEvent ∈ [baseEvent]
    exact List.mem_singleton_self baseEvent
  have h := mark_seen_regardless_of_enabled_kinds cfg0 pt0 store0 0 [baseEvent] [] 0
    baseEvent rfl hmem
  exact ⟨rfl, h.1, h.2⟩

/-- C10: when the extracted current volume is absent or non-positive,
the volume-spike detector returns nothing for every store state, so no
baseline lookup or cooldown state can produce an alert. -/
theorem volume_spike_skips_nonpositive_current_volume (cfg : AlertsConfig) (s : Store)
    (e : Event) (now : Time)
    (h : _extract_volume e = none ∨ ∃ v, _extract_volume e = some v ∧ v ≤ 0) :
    _check_volume_spike cfg s e now = none := by
  unfold _check_volume_spike
  rcases h with h | ⟨v, hv, hle⟩
  · rw [h]
  · rw [hv]
    simp only []
    rw [if_pos (Or.inr hle)]

/-- Witness for C10: a zero current volume is skipped even though the
store holds a strictly positive baseline snapshot for the identifier. -/
theorem volume_spike_skips_nonpositive_witness :
    _extract_volume evZeroVol = some 0 ∧
    baselineVolume storeVS "m1" 0 5 = some 1000 ∧
    _check_volume_spike cfgVS.alerts storeVS evZeroVol 5 = none := by
  have hv : _extract_volume evZeroVol = some 0 := by
    norm_num [_extract_volume, rawTruthy, rawFloat, evZeroVol, baseEvent]
  refine ⟨hv, ?_, ?_⟩
  · norm_num [baselineVolume, Store.get_snapshot, storeVS, snapVS, List.filter, List.foldl]
  · exact volume_spike_skips_nonpositive_current_volume cfgVS.alerts storeVS evZeroVol 5
      (Or.inr ⟨0, hv, le_refl 0⟩)

/-- C2: in a cycle that starts with an empty seen store, no new-market
alert is emitted for any record, and every record of the merged working
set is seen by the end of the cycle. -/
theorem backfill_marks_seen_without_new_market_alerts (cfg : Config)
    (pt : String → Option Time) (s : Store) (cycle : Nat)
    (active_events closed_events : List Event) (now : Time)
    (hempty : s.is_empty = true) :
    (∀ a ∈ (Monitor.poll cfg pt s cycle active_events closed_events now).alerts,
      ¬(a.type = "new_market")) ∧
    (∀ e ∈ mergeEvents active_events closed_events,
      ((Monitor.poll cfg pt s cycle active_events closed_events now).store).is_seen e.id
        = true) := by
  constructor
  · intro a ha hty
    rw [poll_alerts, hempty] at ha
    obtain ⟨l₁, x, l₂, _, hpe⟩ := runLoop_snd_sources ha
    rw [processEvent_snd] at hpe
    simp only [List.mem_append] at hpe
    rcases hpe with ((((h1 | h2) | h3) | h4) | h5)
    · have h := (mem_ite_none_toList h1).2
      rw [check_new_market_fst_none_of_first] at h
      cases h
    · have h := (check_closing_soon_some (mem_ite_none_toList h2).2).1
      rw [hty] at h
      exact absurd h (by decide)
    · have h := (check_resolved_some (mem_ite_none_toList h3).2).1
      rw [hty] at h
      exact absurd h (by decide)
    · have h := (check_price_move_some (mem_ite_none_toList h4).2).1
      rw [hty] at h
      exact absurd h (by decide)
    · have h := (check_volume_spike_some (mem_ite_none_toList h5).2).1
      rw [hty] at h
      exact absurd h (by decide)
  · intro e he
    rw [is_seen_congr (poll_store_seen cfg pt s cycle active_events closed_events now)]
    exact runLoop_fst_is_seen_of_mem he cfg pt s.is_empty now s

/-- Witness for C2 at a concrete first run over one open market. -/
theorem backfill_marks_seen_witness :
    store0.is_empty = true ∧
    (∀ a ∈ (Monitor.poll cfg0 pt0 store0 0 [baseEvent] [] 0).alerts,
      ¬(a.type = "new_market")) ∧
    (∀ e ∈ mergeEvents [baseEvent] [],
      ((Monitor.poll cfg0 pt0 store0 0 [baseEvent] [] 0).store).is_seen e.id = true) := by
  have h := backfill_marks_seen_without_new_market_alerts cfg0 pt0 store0 0
    [baseEvent] [] 0 rfl
  exact ⟨rfl, h.1, h.2⟩

/-- C3 (amended): with the new-market kind enabled, an identifier first
observed in a cycle whose store was not empty gets exactly one
new-market alert provided its age gate passes, an identifier already
seen gets zero, and processing always leaves the identifier seen (so
every later cycle emits zero). -/
theorem new_market_alert_exactly_once_unless_too_old (cfg : Config)
    (pt : String → Option Time) (s : Store) (cycle : Nat)
    (active_events closed_events : List Event) (now : Time) (e : Event)
    (hen : "new_market" ∈ cfg.alerts.enabled_alerts)
    (hmem : e ∈ mergeEvents active_events closed_events) :
    (s.is_empty = false → s.is_seen e.id = false →
      ageWithinLimit cfg.alerts pt now e = true →
      ((Monitor.poll cfg pt s cycle active_events closed_events now).alerts.countP
        (fun a => a.type == "new_market" && a.event.id == e.id)) = 1) ∧
    (s.is_seen e.id = true →
      ((Monitor.poll cfg pt s cycle active_events closed_events now).alerts.countP
        (fun a => a.type == "new_market" && a.event.id == e.id)) = 0) ∧
    ((Monitor.poll cfg pt s cycle active_events closed_events now).store).is_seen e.id
      = true := by
  obtain ⟨l₁, l₂, hsplit, hne₁, hne₂⟩ :=
    mem_split_of_ids_nodup hmem (mergeEvents_ids_nodup active_events closed_events)
  have hp_id : ∀ a : Alert,
      (fun a => a.type == "new_market" && a.event.id == e.id) a = true →
      a.event.id = e.id := by
    intro a hpa
    simp only [Bool.and_eq_true, beq_iff_eq] at hpa
    exact hpa.2
  have hkey :
      (Monitor.poll cfg pt s cycle active_events closed_events now).alerts.countP
        (fun a => a.type == "new_market" && a.event.id == e.id) =
      (if (_check_new_market cfg.alerts pt
          ((runLoop cfg pt s.is_empty now s l₁).1) e s.is_empty now).1.isSome
        then 1 else 0) := by
    rw [poll_alerts, hsplit, runLoop_snd_append, runLoop_snd_cons]
    rw [List.countP_append, List.countP_append]
    rw [runLoop_countP_zero_of_other hp_id hne₁,
      runLoop_countP_zero_of_other hp_id hne₂]
    rw [processEvent_countP_nm]
    have hc : cfg.alerts.enabled_alerts.contains "new_market" = true := by simpa using hen
    rw [if_pos hc]
    omega
  refine ⟨?_, ?_, ?_⟩
  · intro hne hseen hage
    rw [hkey]
    have hseen1 : ((runLoop cfg pt s.is_empty now s l₁).1).is_seen e.id = false := by
      rw [runLoop_fst_is_seen_other hne₁]
      exact hseen
    rw [hne] at hseen1 ⊢
    rw [check_new_market_fst_isSome hseen1 hage]
    rfl
  · intro hseen
    rw [hkey]
    have hseen1 : ((runLoop cfg pt s.is_empty now s l₁).1).is_seen e.id = true := by
      rw [runLoop_fst_is_seen_other hne₁]
      exact hseen
    rw [check_new_market_fst_none_of_seen hseen1]
    rfl
  · rw [is_seen_congr (poll_store_seen cfg pt s cycle active_events closed_events now)]
    exact runLoop_fst_is_seen_of_mem hmem cfg pt s.is_empty now s

/-- Counterexample to C3 as stated: the market m1 is first observed in a
cycle whose store is nonempty, yet zero new-market alerts are emitted,
because its creation timestamp is older than the configured maximum
age. -/
theorem new_market_zero_alerts_when_too_old :
    storeOther.is_empty = false ∧
    storeOther.is_seen "m1" = false ∧
    ((Monitor.poll cfgAge ptCreated storeOther 0 [evOld] [] 100000).alerts.countP
      (fun a => a.type == "new_market" && a.event.id == "m1")) = 0 := by
  refine ⟨rfl, by decide, ?_⟩
  norm_num [Monitor.poll, mergeEvents, dictInsertEvent, setdefaultEvent, processEvent,
    _check_new_market, _check_closing_soon, _check_resolved, _check_price_move,
    _check_volume_spike, _extract_prices, _extract_volume, _extract_resolution,
    extractResolutionGo, _is_closed, rawTruthy, rawFloat, pyTruthyStr, firstTruthyStr,
    outcomeLabel, dictInsert, firstValue, Store.is_seen, Store.mark_seen, Store.is_empty,
    Store.save_snapshot, Store.get_snapshot, Store.has_alert, Store.last_alert_time,
    Store.cleanup_old_snapshots, cfgAge, cfg0, alerts0, allAlertKinds, gamma0, ptCreated,
    evOld, baseEvent, mkMarket, storeOther, List.filter, List.foldl, List.countP,
    List.countP.go, show ("m1" = "other") = False from eq_false (by decide),
    show ("OLD".isEmpty = false) = True from eq_true (by decide)]

/-- Witness for the amended C3 at a concrete cycle: m1 first observed in
a nonempty-store cycle with no age limit configured gets exactly one
new-market alert, and is seen afterwards. -/
theorem new_market_exactly_once_witness :
    storeOther.is_empty = false ∧
    storeOther.is_seen "m1" = false ∧
    ageWithinLimit cfg0.alerts pt0 0 baseEvent = true ∧
    ((Monitor.poll cfg0 pt0 storeOther 0 [baseEvent] [] 0).alerts.countP
      (fun a => a.type == "new_market" && a.event.id == "m1")) = 1 ∧
    ((Monitor.poll cfg0 pt0 storeOther 0 [baseEvent] [] 0).store).is_seen "m1" = true := by
  have hmem : baseEvent ∈ mergeEvents [baseEvent] [] := by
    show baseEvent ∈ [baseEvent]
    exact List.mem_singleton_self baseEvent
  have hage : ageWithinLimit cfg0.alerts pt0 0 baseEvent = true := by decide
  have h := new_market_alert_exactly_once_unless_too_old cfg0 pt0 storeOther 0
    [baseEvent] [] 0 baseEvent (by decide) hmem
  exact ⟨rfl, by decide, hage, h.1 rfl (by decide) hage, h.2.2⟩

/-- C1 is violated by the code: a closed market whose identifier was
never in the seen store before the cycle still receives a resolved
alert, because the new-market step marks it seen earlier in the same
loop iteration, defeating the is_seen guard of the resolved detector. -/
theorem resolved_alert_for_never_seen_closed_market :
    store0.is_seen "m1" = false ∧
    ((Monitor.poll cfg0 pt0 store0 0 [] [evClosed95] 0).alerts.countP
      (fun a => a.type == "resolved")) = 1 := by
  refine ⟨rfl, ?_⟩
  norm_num [Monitor.poll, mergeEvents, dictInsertEvent, setdefaultEvent, processEvent,
    _check_new_market, _check_closing_soon, _check_resolved, _check_price_move,
    _check_volume_spike, _extract_prices, _extract_volume, _extract_resolution,
    extractResolutionGo, _is_closed, rawTruthy, rawFloat, pyTruthyStr, firstTruthyStr,
    outcomeLabel, dictInsert, firstValue, Store.is_seen, Store.mark_seen, Store.is_empty,
    Store.save_snapshot, Store.get_snapshot, Store.has_alert, Store.last_alert_time,
    Store.cleanup_old_snapshots, cfg0, alerts0, allAlertKinds, gamma0, pt0,
    evClosed95, baseEvent, mkMarket, store0, List.filter, List.foldl, List.countP,
    List.countP.go]

/-- C9 (amended): a cycle whose two fetches both fail runs over empty
batches, emits no alerts, increments the cycle counter, and leaves the
seen and alert stores unchanged; the snapshot store is unchanged except
on every 60th cycle, where the retention sweep prunes snapshots older
than 24 hours. -/
theorem fetch_failure_cycle_empty_and_stores_preserved (cfg : Config)
    (pt : String → Option Time) (s : Store) (cycle : Nat) (now : Time) :
    (Monitor.poll cfg pt s cycle (_fetch_events cfg.gamma none)
      (_fetch_events cfg.gamma none) now).alerts = [] ∧
    (Monitor.poll cfg pt s cycle (_fetch_events cfg.gamma none)
      (_fetch_events cfg.gamma none) now).cycle = cycle + 1 ∧
    ((Monitor.poll cfg pt s cycle (_fetch_events cfg.gamma none)
      (_fetch_events cfg.gamma none) now).store).seen = s.seen ∧
    ((Monitor.poll cfg pt s cycle (_fetch_events cfg.gamma none)
      (_fetch_events cfg.gamma none) now).store).alerts_sent = s.alerts_sent ∧
    ((cycle + 1) % 60 ≠ 0 →
      (Monitor.poll cfg pt s cycle (_fetch_events cfg.gamma none)
        (_fetch_events cfg.gamma none) now).store = s) ∧
    ((cycle + 1) % 60 = 0 →
      ((Monitor.poll cfg pt s cycle (_fetch_events cfg.gamma none)
        (_fetch_events cfg.gamma none) now).store).snapshots =
      s.snapshots.filter (fun r => !decide (r.recorded_at < now - 3600 * 24))) := by
  have hE : _fetch_events cfg.gamma none = [] := rfl
  rw [hE, poll_eq_runLoop]
  have hM : mergeEvents [] [] = [] := rfl
  rw [hM]
  have hrl : runLoop cfg pt s.is_empty now s [] = (s, []) := rfl
  rw [hrl]
  refine ⟨rfl, rfl, ?_, ?_, ?_, ?_⟩
  · dsimp only []
    split
    · exact cleanup_seen _ _ _
    · rfl
  · dsimp only []
    split
    · exact cleanup_alerts_sent _ _ _
    · rfl
  · intro h
    dsimp only []
    rw [if_neg (by simpa using h)]
  · intro h
    dsimp only []
    rw [if_pos (by simpa using h)]
    rfl

/-- Witness for the amended C9 at a concrete non-60th cycle: the store
is untouched and no alert is produced. -/
theorem fetch_failure_cycle_witness :
    (1 + 1) % 60 ≠ 0 ∧
    (Monitor.poll cfg0 pt0 storePM 1 (_fetch_events cfg0.gamma none)
      (_fetch_events cfg0.gamma none) 5).alerts = [] ∧
    (Monitor.poll cfg0 pt0 storePM 1 (_fetch_events cfg0.gamma none)
      (_fetch_events cfg0.gamma none) 5).store = storePM := by
  have h := fetch_failure_cycle_empty_and_stores_preserved cfg0 pt0 storePM 1 5
  exact ⟨by decide, h.1, h.2.2.2.2.1 (by decide)⟩

/-- Counterexample to C9 as stated: on a cycle whose counter reaches a
multiple of 60, a fetch-failure cycle still prunes an old snapshot, so
the snapshot store is not left unchanged. -/
theorem fetch_failure_sixtieth_cycle_prunes_snapshots :
    store59.snapshots = [snapOld] ∧
    (Monitor.poll cfg0 pt0 store59 59 (_fetch_events cfg0.gamma none)
      (_fetch_events cfg0.gamma none) 0).alerts = [] ∧
    ((Monitor.poll cfg0 pt0 store59 59 (_fetch_events cfg0.gamma none)
      (_fetch_events cfg0.gamma none) 0).store).snapshots = [] := by
  refine ⟨rfl, ?_, ?_⟩
  · decide
  · decide

/-- C5: with the closing-soon kind enabled, a closing-soon alert for a
record of the working set is emitted in the cycle exactly when the
record is open, its end timestamp parses, the remaining time lies in
(0, closing-alert-hours], and no closing-soon alert was ever committed
for the identifier; since committing is keyed on the identifier and
kind, at most one is ever committed. -/
theorem closing_soon_alert_iff (cfg : Config) (pt : String → Option Time) (s : Store)
    (cycle : Nat) (active_events closed_events : List Event) (now : Time) (e : Event)
    (hen : "closing_soon" ∈ cfg.alerts.enabled_alerts)
    (hmem : e ∈ mergeEvents active_events closed_events) :
    ((∃ a ∈ (Monitor.poll cfg pt s cycle active_events closed_events now).alerts,
        a.type = "closing_soon" ∧ a.event.id = e.id) ↔
      (_is_closed e = false ∧
        ∃ t, parsedEnd pt e = some t ∧
          0 < ((t - now : Int) : Rat) / 3600 ∧
          ((t - now : Int) : Rat) / 3600 ≤ cfg.alerts.closing_alert_hours ∧
          s.has_alert e.id "closing_soon" = false)) ∧
    (∀ (t : Store) (n : Time),
      ((t.record_alert e.id "closing_soon" n).alerts_sent.countP
        (fun r => r.event_id == e.id && r.alert_type == "closing_soon")) = 1) := by
  refine ⟨?_, ?_⟩
  swap
  · intro t n
    unfold Store.record_alert
    rw [List.countP_append]
    have hz : (t.alerts_sent.filter
        (fun a => !(a.event_id == e.id && a.alert_type == "closing_soon"))).countP
        (fun r => r.event_id == e.id && r.alert_type == "closing_soon") = 0 := by
      rw [List.countP_eq_zero]
      intro a ha hpa
      have := (List.mem_filter.mp ha).2
      rw [hpa] at this
      cases this
    rw [hz]
    simp
  obtain ⟨l₁, l₂, hsplit, hne₁, hne₂⟩ :=
    mem_split_of_ids_nodup hmem (mergeEvents_ids_nodup active_events closed_events)
  have hsent : (((runLoop cfg pt s.is_empty now s l₁).1).mark_seen e.id).alerts_sent
      = s.alerts_sent := by
    rw [mark_seen_alerts_sent]
    exact runLoop_fst_alerts_sent cfg pt s.is_empty now l₁ s
  have hcongr : _check_closing_soon cfg.alerts pt
      (((runLoop cfg pt s.is_empty now s l₁).1).mark_seen e.id) e now =
      _check_closing_soon cfg.alerts pt s e now :=
    check_closing_soon_congr hsent cfg.alerts pt e now
  constructor
  · rintro ⟨a, ha, hty, hid⟩
    rw [poll_alerts, hsplit, runLoop_snd_append, runLoop_snd_cons] at ha
    simp only [List.mem_append] at ha
    rcases ha with ha | ha | ha
    · obtain ⟨x, hx, hev⟩ := runLoop_snd_event_mem ha
      exact absurd (by rw [← hev] ; exact hid) (hne₁ x hx)
    · rw [processEvent_snd] at ha
      simp only [List.mem_append] at ha
      rcases ha with ((((h1 | h2) | h3) | h4) | h5)
      · have h := (check_new_market_fst_some (mem_ite_none_toList h1).2).1
        rw [hty] at h
        exact absurd h (by decide)
      · obtain ⟨hcond, hsome⟩ := mem_ite_none_toList h2
        have hopen : _is_closed e = false := by
          simp only [Bool.and_eq_true, Bool.not_eq_true'] at hcond
          exact hcond.2
        rw [hcongr] at hsome
        exact ⟨hopen,
          (check_closing_soon_isSome_iff cfg.alerts pt s e now).mp ⟨a, hsome⟩⟩
      · have h := (check_resolved_some (mem_ite_none_toList h3).2).1
        rw [hty] at h
        exact absurd h (by decide)
      · have h := (check_price_move_some (mem_ite_none_toList h4).2).1
        rw [hty] at h
        exact absurd h (by decide)
      · have h := (check_volume_spike_some (mem_ite_none_toList h5).2).1
        rw [hty] at h
        exact absurd h (by decide)
    · obtain ⟨x, hx, hev⟩ := runLoop_snd_event_mem ha
      exact absurd (by rw [← hev] ; exact hid) (hne₂ x hx)
  · rintro ⟨hopen, t, hpe, h1, h2, hal⟩
    obtain ⟨a, hsome⟩ := (check_closing_soon_isSome_iff cfg.alerts pt s e now).mpr
      ⟨t, hpe, h1, h2, hal⟩
    have hsome' : _check_closing_soon cfg.alerts pt
        (((runLoop cfg pt s.is_empty now s l₁).1).mark_seen e.id) e now = some a := by
      rw [hcongr]
      exact hsome
    have htype := check_closing_soon_some hsome
    refine ⟨a, ?_, htype.1, by rw [htype.2]⟩
    rw [poll_alerts, hsplit, runLoop_snd_append, runLoop_snd_cons]
    apply List.mem_append.mpr
    right
    apply List.mem_append.mpr
    left
    rw [processEvent_snd]
    have hcondb : (cfg.alerts.enabled_alerts.contains "closing_soon" && !(_is_closed e))
        = true := by
      simp only [Bool.and_eq_true]
      exact ⟨by simpa using hen, by simp [hopen]⟩
    have h2mem : a ∈ (if (cfg.alerts.enabled_alerts.contains "closing_soon"
        && !(_is_closed e)) = true then
          _check_closing_soon cfg.alerts pt
            (((runLoop cfg pt s.is_empty now s l₁).1).mark_seen e.id) e now
        else none).toList := by
      rw [if_pos hcondb, hsome']
      exact List.mem_singleton_self a
    exact List.mem_append_left _ (List.mem_append_left _
      (List.mem_append_left _ (List.mem_append_right _ h2mem)))

/-- Witness for C5: a concrete open market one hour from its end, with
the kind enabled and nothing committed, yields a closing-soon alert. -/
theorem closing_soon_alert_witness :
    ∃ a ∈ (Monitor.poll cfg0 ptEnd storeSeen 0 [evClosing] [] 0).alerts,
      a.type = "closing_soon" ∧ a.event.id = "m1" := by
  have hmem : evClosing ∈ mergeEvents [evClosing] [] := by
    show evClosing ∈ [evClosing]
    exact List.mem_singleton_self evClosing
  have h := (closing_soon_alert_iff cfg0 ptEnd storeSeen 0 [evClosing] [] 0 evClosing
    (by decide) hmem).1.mpr
    ⟨rfl, 3600, rfl, by norm_num, by norm_num [cfg0, alerts0], rfl⟩
  exact h

/-- Counterexample to C6 as stated: when the time since the last
committed price-move alert equals the cooldown window exactly (so it
does not strictly exceed it), the code still emits the alert, because
it only skips when the elapsed time is strictly below the cooldown. -/
theorem price_move_alert_at_exact_cooldown_boundary :
    storeCD.last_alert_time "m1" "price_move" = some 0 ∧
    (((1800 : Int) - (0 : Int) : Int) : Rat) / 60 = cfgPM.alerts.price_cooldown_minutes ∧
    ((Monitor.poll cfgPM pt0 storeCD 0 [evMoved] [] 1800).alerts.countP
      (fun a => a.type == "price_move")) = 1 := by
  refine ⟨by decide, by norm_num [cfgPM, cfg0, alerts0], ?_⟩
  norm_num [Monitor.poll, mergeEvents, dictInsertEvent, setdefaultEvent, processEvent,
    _check_new_market, _check_closing_soon, _check_resolved, _check_price_move,
    _check_volume_spike, _extract_prices, _extract_volume, _extract_resolution,
    extractResolutionGo, _is_closed, rawTruthy, rawFloat, pyTruthyStr, firstTruthyStr,
    outcomeLabel, dictInsert, firstValue, Store.is_seen, Store.mark_seen, Store.is_empty,
    Store.save_snapshot, Store.get_snapshot, Store.has_alert, Store.last_alert_time,
    Store.cleanup_old_snapshots, cfgPM, cfg0, alerts0, allAlertKinds, gamma0, pt0,
    evMoved, baseEvent, mkMarket, storeCD, storePM, snapPM, List.filter, List.foldl,
    List.countP, List.countP.go,
    show |(1 : Rat)/5| = 1/5 from abs_of_pos (by norm_num)]

/-- C6 (amended): with the price-move kind enabled, an open record with
an extractable current first price p gets a price-move alert exactly
when a baseline snapshot at or before now minus the lookback exists
with a usable first price q, the absolute difference reaches the
threshold, and the time since the last committed price-move alert (if
any) is at least the cooldown window. -/
theorem price_move_alert_iff_threshold_and_cooldown (cfg : Config)
    (pt : String → Option Time) (s : Store) (cycle : Nat)
    (active_events closed_events : List Event) (now : Time) (e : Event) (p : Rat)
    (hen : "price_move" ∈ cfg.alerts.enabled_alerts)
    (hmem : e ∈ mergeEvents active_events closed_events)
    (hopen : _is_closed e = false)
    (hp : currentFirstPrice e = some p) :
    (∃ a ∈ (Monitor.poll cfg pt s cycle active_events closed_events now).alerts,
        a.type = "price_move" ∧ a.event.id = e.id) ↔
      ∃ q, baselineFirstPrice s e.id cfg.alerts.price_lookback_minutes now = some q ∧
        cfg.alerts.price_threshold ≤ |p - q| ∧
        cooldownAtLeast (s.last_alert_time e.id "price_move")
          cfg.alerts.price_cooldown_minutes now := by
  obtain ⟨l₁, l₂, hsplit, hne₁, hne₂⟩ :=
    mem_split_of_ids_nodup hmem (mergeEvents_ids_nodup active_events closed_events)
  have hsent : (((runLoop cfg pt s.is_empty now s l₁).1).mark_seen e.id).alerts_sent
      = s.alerts_sent := by
    rw [mark_seen_alerts_sent]
    exact runLoop_fst_alerts_sent cfg pt s.is_empty now l₁ s
  have hget : (((runLoop cfg pt s.is_empty now s l₁).1).mark_seen e.id).get_snapshot
      e.id cfg.alerts.price_lookback_minutes now =
      s.get_snapshot e.id cfg.alerts.price_lookback_minutes now := by
    rw [get_snapshot_congr (mark_seen_snapshots _ _)]
    exact runLoop_fst_get_snapshot_other hne₁ cfg pt s.is_empty now now
      cfg.alerts.price_lookback_minutes s
  have hbase_eq : baselineFirstPrice (((runLoop cfg pt s.is_empty now s l₁).1).mark_seen e.id)
      e.id cfg.alerts.price_lookback_minutes now =
      baselineFirstPrice s e.id cfg.alerts.price_lookback_minutes now := by
    unfold baselineFirstPrice
    rw [hget]
  have hlast : (((runLoop cfg pt s.is_empty now s l₁).1).mark_seen e.id).last_alert_time
      e.id "price_move" = s.last_alert_time e.id "price_move" :=
    last_alert_time_congr hsent e.id "price_move"
  constructor
  · rintro ⟨a, ha, hty, hid⟩
    rw [poll_alerts, hsplit, runLoop_snd_append, runLoop_snd_cons] at ha
    simp only [List.mem_append] at ha
    rcases ha with ha | ha | ha
    · obtain ⟨x, hx, hev⟩ := runLoop_snd_event_mem ha
      exact absurd (by rw [← hev] ; exact hid) (hne₁ x hx)
    · rw [processEvent_snd] at ha
      simp only [List.mem_append] at ha
      rcases ha with ((((h1 | h2) | h3) | h4) | h5)
      · have h := (check_new_market_fst_some (mem_ite_none_toList h1).2).1
        rw [hty] at h
        exact absurd h (by decide)
      · have h := (check_closing_soon_some (mem_ite_none_toList h2).2).1
        rw [hty] at h
        exact absurd h (by decide)
      · have h := (check_resolved_some (mem_ite_none_toList h3).2).1
        rw [hty] at h
        exact absurd h (by decide)
      · obtain ⟨_, hsome⟩ := mem_ite_none_toList h4
        have hex := (check_price_move_isSome_iff cfg.alerts
          (((runLoop cfg pt s.is_empty now s l₁).1).mark_seen e.id) e now hp).mp ⟨a, hsome⟩
        rw [hbase_eq, hlast] at hex
        exact hex
      · have h := (check_volume_spike_some (mem_ite_none_toList h5).2).1
        rw [hty] at h
        exact absurd h (by decide)
    · obtain ⟨x, hx, hev⟩ := runLoop_snd_event_mem ha
      exact absurd (by rw [← hev] ; exact hid) (hne₂ x hx)
  · intro hcond
    have hcond' : ∃ q, baselineFirstPrice
        (((runLoop cfg pt s.is_empty now s l₁).1).mark_seen e.id) e.id
        cfg.alerts.price_lookback_minutes now = some q ∧
        cfg.alerts.price_threshold ≤ |p - q| ∧
        cooldownAtLeast ((((runLoop cfg pt s.is_empty now s l₁).1).mark_seen e.id).last_alert_time
          e.id "price_move") cfg.alerts.price_cooldown_minutes now := by
      rw [hbase_eq, hlast]
      exact hcond
    obtain ⟨a, hsome⟩ := (check_price_move_isSome_iff cfg.alerts
      (((runLoop cfg pt s.is_empty now s l₁).1).mark_seen e.id) e now hp).mpr hcond'
    have htype := check_price_move_some hsome
    refine ⟨a, ?_, htype.1, by rw [htype.2]⟩
    rw [poll_alerts, hsplit, runLoop_snd_append, runLoop_snd_cons]
    apply List.mem_append.mpr
    right
    apply List.mem_append.mpr
    left
    rw [processEvent_snd]
    have hcondb : (cfg.alerts.enabled_alerts.contains "price_move" && !(_is_closed e))
        = true := by
      simp only [Bool.and_eq_true]
      exact ⟨by simpa using hen, by simp [hopen]⟩
    have h4mem : a ∈ (if (cfg.alerts.enabled_alerts.contains "price_move"
        && !(_is_closed e)) = true then
          _check_price_move cfg.alerts
            (((runLoop cfg pt s.is_empty now s l₁).1).mark_seen e.id) e now
        else none).toList := by
      rw [if_pos hcondb, hsome]
      exact List.mem_singleton_self a
    exact List.mem_append_left _ (List.mem_append_right _ h4mem)

/-- Witness for the amended C6: a price move from 0.50 to 0.70 with
threshold 0.10, zero lookback, and no committed alert emits exactly the
price-move alert. -/
theorem price_move_alert_iff_witness :
    ∃ a ∈ (Monitor.poll cfgPM pt0 storePM 0 [evMoved] [] 5).alerts,
      a.type = "price_move" ∧ a.event.id = "m1" := by
  have hmem : evMoved ∈ mergeEvents [evMoved] [] := by
    show evMoved ∈ [evMoved]
    exact List.mem_singleton_self evMoved
  have hp : currentFirstPrice evMoved = some (7/10) := by
    norm_num [currentFirstPrice, _extract_prices, firstValue, outcomeLabel, dictInsert,
      evMoved, baseEvent, mkMarket]
  have hbase : baselineFirstPrice storePM "m1" cfgPM.alerts.price_lookback_minutes 5
      = some (1/2) := by
    norm_num [baselineFirstPrice, Store.get_snapshot, firstValue, storePM, snapPM,
      cfgPM, cfg0, alerts0, List.filter, List.foldl]
  exact (price_move_alert_iff_threshold_and_cooldown cfgPM pt0 storePM 0 [evMoved] [] 5
    evMoved (7/10) (by decide) hmem rfl hp).mpr
    ⟨1/2, hbase,
      by norm_num [cfgPM, cfg0, alerts0, show |(1 : Rat)/5| = 1/5 from abs_of_pos (by norm_num)],
      by intro t ht; cases ht⟩

/-- C7: a volume-spike alert is emitted for a record only when the
record is open, its current volume is strictly positive, a baseline
snapshot with strictly positive stored volume exists at or before the
lookback cutoff, the current-to-baseline ratio reaches the multiplier,
and the cooldown since the last committed volume-spike alert (if any)
has elapsed. -/
theorem volume_spike_only_if_positive_baseline_and_cooldown (cfg : Config)
    (pt : String → Option Time) (s : Store) (cycle : Nat)
    (active_events closed_events : List Event) (now : Time) :
    ∀ a ∈ (Monitor.poll cfg pt s cycle active_events closed_events now).alerts,
      a.type = "volume_spike" →
      (_is_closed a.event = false ∧
       ∃ v, _extract_volume a.event = some v ∧ 0 < v ∧
       ∃ ov, baselineVolume s a.event.id cfg.alerts.volume_lookback_minutes now
          = some ov ∧ 0 < ov ∧ cfg.alerts.volume_spike_multiplier ≤ v / ov ∧
         cooldownAtLeast (s.last_alert_time a.event.id "volume_spike")
           cfg.alerts.volume_cooldown_minutes now) := by
  intro a ha hty
  rw [poll_alerts] at ha
  obtain ⟨l₁, x, l₂, hsplit, hpe⟩ := runLoop_snd_sources ha
  have hne₁ := (ids_ne_of_split_nodup hsplit
    (mergeEvents_ids_nodup active_events closed_events)).1
  have hev : a.event = x := processEvent_snd_event hpe
  rw [processEvent_snd] at hpe
  simp only [List.mem_append] at hpe
  rcases hpe with ((((h1 | h2) | h3) | h4) | h5)
  · have h := (check_new_market_fst_some (mem_ite_none_toList h1).2).1
    rw [hty] at h
    exact absurd h (by decide)
  · have h := (check_closing_soon_some (mem_ite_none_toList h2).2).1
    rw [hty] at h
    exact absurd h (by decide)
  · have h := (check_resolved_some (mem_ite_none_toList h3).2).1
    rw [hty] at h
    exact absurd h (by decide)
  · have h := (check_price_move_some (mem_ite_none_toList h4).2).1
    rw [hty] at h
    exact absurd h (by decide)
  · obtain ⟨hcond, hsome⟩ := mem_ite_none_toList h5
    have hx_open : _is_closed x = false := by
      simp only [Bool.and_eq_true, Bool.not_eq_true'] at hcond
      exact hcond.2
    have hsent : (((runLoop cfg pt s.is_empty now s l₁).1).mark_seen x.id).alerts_sent
        = s.alerts_sent := by
      rw [mark_seen_alerts_sent]
      exact runLoop_fst_alerts_sent cfg pt s.is_empty now l₁ s
    have hget : (((runLoop cfg pt s.is_empty now s l₁).1).mark_seen x.id).get_snapshot
        x.id cfg.alerts.volume_lookback_minutes now =
        s.get_snapshot x.id cfg.alerts.volume_lookback_minutes now := by
      rw [get_snapshot_congr (mark_seen_snapshots _ _)]
      exact runLoop_fst_get_snapshot_other hne₁ cfg pt s.is_empty now now
        cfg.alerts.volume_lookback_minutes s
    obtain ⟨v, hv, hvpos, ov, hov, hovpos, hmul, hcd⟩ :=
      check_volume_spike_some_conditions hsome
    have hbase : baselineVolume s x.id cfg.alerts.volume_lookback_minutes now
        = some ov := by
      unfold baselineVolume at hov ⊢
      rw [← hget]
      exact hov
    have hlast : (((runLoop cfg pt s.is_empty now s l₁).1).mark_seen x.id).last_alert_time
        x.id "volume_spike" = s.last_alert_time x.id "volume_spike" :=
      last_alert_time_congr hsent x.id "volume_spike"
    rw [hev]
    refine ⟨hx_open, v, hv, hvpos, ov, hbase, hovpos, hmul, ?_⟩
    rw [← hlast]
    exact hcd

/-- Witness for C7: the concrete spike cycle emits a volume-spike alert
and the theorem yields its positive baseline, ratio and cooldown facts. -/
theorem volume_spike_only_if_witness :
    ∃ v, _extract_volume evSpike = some v ∧ 0 < v ∧
    ∃ ov, baselineVolume storeVS "m1" cfgVS.alerts.volume_lookback_minutes 5
      = some ov ∧ 0 < ov ∧ cfgVS.alerts.volume_spike_multiplier ≤ v / ov := by
  have halerts : (Monitor.poll cfgVS pt0 storeVS 0 [evSpike] [] 5).alerts
      = [aSpike] := by
    norm_num [Monitor.poll, mergeEvents, dictInsertEvent, setdefaultEvent, processEvent,
      _check_new_market, _check_closing_soon, _check_resolved, _check_price_move,
      _check_volume_spike, _extract_prices, _extract_volume, _extract_resolution,
      extractResolutionGo, _is_closed, rawTruthy, rawFloat, pyTruthyStr, firstTruthyStr,
      outcomeLabel, dictInsert, firstValue, Store.is_seen, Store.mark_seen, Store.is_empty,
      Store.save_snapshot, Store.get_snapshot, Store.has_alert, Store.last_alert_time,
      Store.cleanup_old_snapshots, cfgVS, cfg0, alerts0, allAlertKinds, gamma0, pt0,
      evSpike, baseEvent, mkMarket, storeVS, snapVS, aSpike, List.filter, List.foldl]
  have hmem : aSpike ∈ (Monitor.poll cfgVS pt0 storeVS 0 [evSpike] [] 5).alerts := by
    rw [halerts]
    exact List.mem_singleton_self _
  have h := volume_spike_only_if_positive_baseline_and_cooldown cfgVS pt0 storeVS 0
    [evSpike] [] 5 _ hmem rfl
  obtain ⟨_, v, hv, hvpos, ov, hov, hovpos, hmul, _⟩ := h
  exact ⟨v, hv, hvpos, ov, hov, hovpos, hmul⟩

end Polynotify
